import Mathlib

/-!
# Twingate Terraform provider: lifecycle glue over the GraphQL client

A shallow embedding of the CRUD lifecycle functions of the provider
(`service-key.go`, `user.go`, `connectors.go`, `converter.go`,
`resource_connector.go`) together with the parts of the Go runtime and of the
Terraform plugin SDK they rely on:

* Go `error` values with `errors.Is` over the `Unwrap` chain,
* `diag.Diagnostics` and `diag.FromErr`,
* `schema.ResourceData` (`Id`, `SetId`, `Get`, `Set`, `HasChange`) typed by the
  resource schema,
* the API client as an oracle whose answers may depend on every earlier call;
  each lifecycle function threads the list of client calls issued so far.

Go pointers that may be nil are `Option`; a nil dereference or a failed type
assertion is the outcome `panic`.
-/

namespace Provider

/-! ## Go errors -/

/-- A Go `error` value. `sentinel` is a package-level error variable (compared
by identity, here by its qualified name), `errorString` any other error value
without an `Unwrap` method, `wrapError` an error with its own message whose
`Unwrap` method yields `err`. -/
inductive GoError where
  | sentinel (name : String) (msg : String)
  | errorString (msg : String)
  | wrapError (msg : String) (err : GoError)
  deriving DecidableEq, Repr

namespace GoError

/-- The `Error()` method. -/
def Error : GoError → String
  | sentinel _ msg => msg
  | errorString msg => msg
  | wrapError msg _ => msg

end GoError

/-- Go `errors.Is`: `err` or some error on its `Unwrap` chain equals `target`. -/
def errorsIs : GoError → GoError → Bool
  | GoError.wrapError msg inner, target =>
      decide (GoError.wrapError msg inner = target) || errorsIs inner target
  | err, target => decide (err = target)

/-- Outcome of running a Go function: a normal return, a runtime panic, or the
call-depth budget of the embedding being used up. -/
inductive Outcome (α : Type) where
  | ret (a : α)
  | panic (why : String)
  | outOfFuel
  deriving DecidableEq, Repr

/-! ## Terraform plugin SDK: `diag` -/

namespace diag

inductive Severity where
  | Error
  | Warning
  deriving DecidableEq, Repr

structure Diagnostic where
  Severity : Severity
  Summary : String
  Detail : String
  deriving DecidableEq, Repr

/-- The `diag.Diagnostics` slice; `nil` is `[]`. -/
abbrev Diagnostics := List Diagnostic

/-- SDK `diag.FromErr`: nil for a nil error, else one error diagnostic whose
summary is the error's message. -/
def FromErr : Option GoError → Diagnostics
  | none => []
  | some err => [{ Severity := Severity.Error, Summary := err.Error, Detail := "" }]

/-- Whether the diagnostics hold an error (`Diagnostics.HasError`). -/
def HasError (diags : Diagnostics) : Bool :=
  diags.any fun dg => decide (dg.Severity = Severity.Error)

end diag

/-! ## Terraform plugin SDK: `schema` -/

namespace schema

/-- A primitive attribute value. -/
inductive Prim where
  | str (s : String)
  | bool (b : Bool)
  deriving DecidableEq, Repr

/-- A `map[string]interface{}` with primitive entries, as one element of a list
attribute. A Go map holds a key once; a lookup takes the first entry of a
key. -/
abbrev TfObject := List (String × Prim)

inductive ElemType where
  | TypeString
  | TypeBool
  deriving DecidableEq, Repr

/-- The `Type` of a `schema.Schema` entry; `TypeList` carries the schema of its
`Elem` resource. -/
inductive ValueType where
  | TypeString
  | TypeBool
  | TypeList (elem : List (String × ElemType))
  deriving DecidableEq, Repr

/-- A resource schema: `map[string]*schema.Schema`, reduced to the types. -/
abbrev Schema := List (String × ValueType)

/-- An `interface{}` value passed to `Set` or returned by `Get`. -/
inductive Value where
  | null
  | str (s : String)
  | bool (b : Bool)
  | list (items : List TfObject)
  deriving DecidableEq, Repr

/-- The type assertion `v.(string)`. -/
def Value.assertString : Value → Option String
  | Value.str s => some s
  | _ => none

/-- The type assertion `v.(bool)`. -/
def Value.assertBool : Value → Option Bool
  | Value.bool b => some b
  | _ => none

/-- The `schema.ResourceData` of a resource with schema `sch`: the id, the
current value of every attribute (stored by type; for a list attribute the
objects as they were written), per attribute whether the plan differs from the
prior state (`HasChange`, which `Set` does not affect), and the error the
SDK's field writer returns when it rejects a write (its text is the SDK's and
is not modelled). -/
structure ResourceData (sch : Schema) where
  id : String
  strings : String → String
  bools : String → Bool
  lists : String → List TfObject
  changed : String → Bool
  setError : String → Value → GoError

/-- Whether an object fits the element schema of a list attribute. -/
def conforms (elem : List (String × ElemType)) (o : TfObject) : Bool :=
  o.all fun kv =>
    match elem.lookup kv.1, kv.2 with
    | some ElemType.TypeString, Prim.str _ => true
    | some ElemType.TypeBool, Prim.bool _ => true
    | _, _ => false

/-- The zero value of an element attribute: the empty string or `false`. -/
def zeroPrim : ElemType → Prim
  | ElemType.TypeString => Prim.str ""
  | ElemType.TypeBool => Prim.bool false

/-- How the SDK's field reader returns one element of a list attribute: a map
with every key of the `Elem` schema, holding the value written for the key and
the zero value of its type when none was written. -/
def readBack (elem : List (String × ElemType)) (o : TfObject) : TfObject :=
  elem.map fun kt => (kt.1, (o.lookup kt.1).getD (zeroPrim kt.2))

namespace ResourceData

variable {sch : Schema}

def Id (d : ResourceData sch) : String := d.id

def SetId (d : ResourceData sch) (v : String) : ResourceData sch :=
  { d with id := v }

/-- The `Get` method: the current value of an attribute of the schema (its zero
value when never set), each element of a list read back with every key of the
`Elem` schema, and nil for a key outside the schema. -/
def Get (d : ResourceData sch) (key : String) : Value :=
  match sch.lookup key with
  | some ValueType.TypeString => Value.str (d.strings key)
  | some ValueType.TypeBool => Value.bool (d.bools key)
  | some (ValueType.TypeList elem) => Value.list ((d.lists key).map (readBack elem))
  | none => Value.null

/-- The `HasChange` method. -/
def HasChange (d : ResourceData sch) (key : String) : Bool := d.changed key

/-- The `Set` method: writes the value when the key is in the schema and the
value fits its type (for a list, when every key of every object is in the
`Elem` schema with a value of its type), else returns the field writer's error
and writes nothing. -/
def Set (d : ResourceData sch) (key : String) (value : Value) :
    Except GoError (ResourceData sch) :=
  match sch.lookup key, value with
  | some ValueType.TypeString, Value.str s =>
      Except.ok { d with strings := fun k => if k = key then s else d.strings k }
  | some ValueType.TypeBool, Value.bool b =>
      Except.ok { d with bools := fun k => if k = key then b else d.bools k }
  | some (ValueType.TypeList elem), Value.list items =>
      if items.all (conforms elem) then
        Except.ok { d with lists := fun k => if k = key then items else d.lists k }
      else
        Except.error (d.setError key value)
  | some _, _ => Except.error (d.setError key value)
  | none, _ => Except.error (d.setError key value)

end ResourceData

end schema

/-! ## Package `model` -/

namespace model

/-- Modelled from the spec: the struct `model.User` is not in src; its fields
are the ones of the spec's data model, which `convertUser` fills. -/
structure User where
  ID : String
  Email : String
  FirstName : String
  LastName : String
  SendInvite : Bool
  IsActive : Bool
  Role : String
  Type_ : String
  deriving DecidableEq, Repr

/-- Modelled from the spec: the struct `model.UserUpdate` is not in src; a
partial update of a user with one optional (pointer) field per attribute, as
`convertUserUpdate` fills it. -/
structure UserUpdate where
  ID : String
  FirstName : Option String
  LastName : Option String
  Role : Option String
  IsActive : Option Bool
  deriving DecidableEq, Repr

/-- Modelled from the spec: the struct `model.ServiceKey` is not in src; the
spec's data model gives ID, Name, Service, Token and the active state, kept
here as the boolean that `IsActive` reports. -/
structure ServiceKey where
  ID : String
  Name : String
  Service : String
  Token : String
  Active : Bool
  deriving DecidableEq, Repr

/-- Modelled from the spec: the method `IsActive` of `model.ServiceKey` is not
in src; it reports the key's active state. -/
def ServiceKey.IsActive (k : ServiceKey) : Bool := k.Active

/-- Modelled from the spec: the struct `model.Connector` is not in src; the
spec's data model gives an ID and a Name. -/
structure Connector where
  ID : String
  Name : String
  deriving DecidableEq, Repr

end model

/-! ## Package `attr`: attribute names -/

namespace attr

/-- Modelled from the spec: the constants of package `attr` are not in src;
each is the attribute name the specification uses for the field. -/
def ID : String := "id"
/-- Modelled from the spec: attribute name constant of package `attr`. -/
def Name : String := "name"
/-- Modelled from the spec: attribute name constant of package `attr`. -/
def Email : String := "email"
/-- Modelled from the spec: attribute name constant of package `attr`. -/
def FirstName : String := "first_name"
/-- Modelled from the spec: attribute name constant of package `attr`. -/
def LastName : String := "last_name"
/-- Modelled from the spec: attribute name constant of package `attr`. -/
def SendInvite : String := "send_invite"
/-- Modelled from the spec: attribute name constant of package `attr`. -/
def IsActive : String := "is_active"
/-- Modelled from the spec: attribute name constant of package `attr`. -/
def Role : String := "role"
/-- Modelled from the spec: attribute name constant of package `attr`. -/
def Type_ : String := "type"
/-- Modelled from the spec: attribute name constant of package `attr`. -/
def Connectors : String := "connectors"
/-- Modelled from the spec: attribute name constant of package `attr`. -/
def RemoteNetworkID : String := "remote_network_id"
/-- Modelled from the spec: attribute name constant of package `attr`. -/
def StatusUpdatesEnabled : String := "status_updates_enabled"

end attr

/-! ## Package `client`: the API client as an oracle -/

namespace client

/-- Modelled from the spec: the sentinel `client.ErrGraphqlResultIsEmpty` is not
in src; its message is the spec's "query result is empty". -/
def ErrGraphqlResultIsEmpty : GoError :=
  GoError.sentinel "client.ErrGraphqlResultIsEmpty" "query result is empty"

/-- One call of a client method, with its arguments. -/
inductive Call where
  | CreateServiceKey (serviceKey : model.ServiceKey)
  | ReadServiceKey (id : String)
  | UpdateServiceKey (serviceKey : model.ServiceKey)
  | RevokeServiceKey (id : String)
  | DeleteServiceKey (id : String)
  | ReadUser (id : String)
  | UpdateUser (req : model.UserUpdate)
  | DeleteUser (id : String)
  | ReadConnectors
  deriving DecidableEq, Repr

/-- The methods of `*client.Client` the lifecycle functions call. The client's
code is not part of the embedding: each method is an arbitrary function of the
calls issued before it and of its arguments, returning Go's pair of a result
pointer and an error. -/
structure Client where
  CreateServiceKey : List Call → model.ServiceKey → Option model.ServiceKey × Option GoError
  ReadServiceKey : List Call → String → Option model.ServiceKey × Option GoError
  UpdateServiceKey : List Call → model.ServiceKey → Option model.ServiceKey × Option GoError
  RevokeServiceKey : List Call → String → Option GoError
  DeleteServiceKey : List Call → String → Option GoError
  ReadUser : List Call → String → Option model.User × Option GoError
  UpdateUser : List Call → model.UserUpdate → Option model.User × Option GoError
  DeleteUser : List Call → String → Option GoError
  ReadConnectors : List Call → Option (List model.Connector) × Option GoError

end client

/-- What a lifecycle function leaves behind when it returns: the resource data,
the client calls issued so far (oldest first) and the returned diagnostics. -/
structure Result (sch : schema.Schema) where
  data : schema.ResourceData sch
  trace : List client.Call
  diags : diag.Diagnostics

/-! ## Package `resource`: service keys (`service-key.go`) -/

namespace resource

open schema client

def fieldID : String := "id"
def fieldName : String := "name"
def fieldServiceID : String := "service_account_id"
def fieldToken : String := "token"

/-- The schema declared by `ServiceKey()`. -/
def ServiceKey : Schema :=
  [(fieldServiceID, ValueType.TypeString),
   (fieldName, ValueType.TypeString),
   (fieldID, ValueType.TypeString),
   (fieldToken, ValueType.TypeString)]

/-- The literal `&model.ServiceKey{Service: ..., Name: ...}`: the other fields
are zero. -/
def newServiceKey (service name : String) : model.ServiceKey :=
  { ID := "", Name := name, Service := service, Token := "", Active := false }

/-- The literal `&model.ServiceKey{ID: ..., Name: ...}`. -/
def serviceKeyWithID (id name : String) : model.ServiceKey :=
  { ID := id, Name := name, Service := "", Token := "", Active := false }

/-! `serviceKeyCreate`, `serviceKeyReadHelper` and `reCreateServiceKey` call one
another without a bound in the source. The first argument is the remaining
depth of nested calls among the three: each call uses one unit, and a call at
depth zero is `outOfFuel`. -/
mutual

def serviceKeyCreate : Nat → Client → ResourceData ServiceKey → List Call →
    Outcome (Result ServiceKey)
  | 0, _, _, _ => Outcome.outOfFuel
  | fuel + 1, c, resourceData, tr =>
    match (resourceData.Get fieldServiceID).assertString with
    | none => Outcome.panic "interface conversion: not a string"
    | some service =>
      match (resourceData.Get fieldName).assertString with
      | none => Outcome.panic "interface conversion: not a string"
      | some name =>
        let req := newServiceKey service name
        let tr1 := tr ++ [Call.CreateServiceKey req]
        match c.CreateServiceKey tr req with
        | (_, some err) => Outcome.ret ⟨resourceData, tr1, diag.FromErr (some err)⟩
        | (none, none) => Outcome.panic "nil pointer dereference"
        | (some serviceKey, none) =>
          match resourceData.Set fieldToken (Value.str serviceKey.Token) with
          | Except.error err => Outcome.ret ⟨resourceData, tr1, diag.FromErr (some err)⟩
          | Except.ok d1 => serviceKeyReadHelper fuel c d1 tr1 (some serviceKey) none

def serviceKeyReadHelper : Nat → Client → ResourceData ServiceKey → List Call →
    Option model.ServiceKey → Option GoError → Outcome (Result ServiceKey)
  | 0, _, _, _, _, _ => Outcome.outOfFuel
  | fuel + 1, c, resourceData, tr, serviceKey, err =>
    match err with
    | some e =>
      if errorsIs e ErrGraphqlResultIsEmpty then
        Outcome.ret ⟨resourceData.SetId "", tr, []⟩
      else
        Outcome.ret ⟨resourceData, tr, diag.FromErr (some e)⟩
    | none =>
      match serviceKey with
      | none => Outcome.panic "nil pointer dereference"
      | some k =>
        if !k.IsActive then
          reCreateServiceKey fuel c resourceData tr
        else
          match resourceData.Set fieldName (Value.str k.Name) with
          | Except.error e => Outcome.ret ⟨resourceData, tr, diag.FromErr (some e)⟩
          | Except.ok d1 =>
            match d1.Set fieldServiceID (Value.str k.Service) with
            | Except.error e => Outcome.ret ⟨d1, tr, diag.FromErr (some e)⟩
            | Except.ok d2 => Outcome.ret ⟨d2.SetId k.ID, tr, []⟩

def reCreateServiceKey : Nat → Client → ResourceData ServiceKey → List Call →
    Outcome (Result ServiceKey)
  | 0, _, _, _ => Outcome.outOfFuel
  | fuel + 1, c, resourceData, tr =>
    let tr1 := tr ++ [Call.DeleteServiceKey resourceData.Id]
    match c.DeleteServiceKey tr resourceData.Id with
    | some err => Outcome.ret ⟨resourceData, tr1, diag.FromErr (some err)⟩
    | none => serviceKeyCreate fuel c resourceData tr1

end

def serviceKeyRead (fuel : Nat) (c : Client) (resourceData : ResourceData ServiceKey)
    (tr : List Call) : Outcome (Result ServiceKey) :=
  let r := c.ReadServiceKey tr resourceData.Id
  serviceKeyReadHelper fuel c resourceData (tr ++ [Call.ReadServiceKey resourceData.Id]) r.1 r.2

def serviceKeyUpdate (fuel : Nat) (c : Client) (resourceData : ResourceData ServiceKey)
    (tr : List Call) : Outcome (Result ServiceKey) :=
  match (resourceData.Get fieldName).assertString with
  | none => Outcome.panic "interface conversion: not a string"
  | some name =>
    let req := serviceKeyWithID resourceData.Id name
    let tr1 := tr ++ [Call.UpdateServiceKey req]
    match c.UpdateServiceKey tr req with
    | (_, some err) => Outcome.ret ⟨resourceData, tr1, diag.FromErr (some err)⟩
    | (none, none) => Outcome.panic "nil pointer dereference"
    | (some serviceKey, none) => serviceKeyReadHelper fuel c resourceData tr1 (some serviceKey) none

def serviceKeyDelete (c : Client) (resourceData : ResourceData ServiceKey)
    (tr : List Call) : Outcome (Result ServiceKey) :=
  let tr1 := tr ++ [Call.ReadServiceKey resourceData.Id]
  match c.ReadServiceKey tr resourceData.Id with
  | (_, some err) => Outcome.ret ⟨resourceData, tr1, diag.FromErr (some err)⟩
  | (none, none) => Outcome.panic "nil pointer dereference"
  | (some serviceKey, none) =>
    let revoked : Option GoError × List Call :=
      if serviceKey.IsActive then
        (c.RevokeServiceKey tr1 resourceData.Id, tr1 ++ [Call.RevokeServiceKey resourceData.Id])
      else
        (none, tr1)
    match revoked.1 with
    | some err => Outcome.ret ⟨resourceData, revoked.2, diag.FromErr (some err)⟩
    | none =>
      let tr3 := revoked.2 ++ [Call.DeleteServiceKey resourceData.Id]
      match c.DeleteServiceKey revoked.2 resourceData.Id with
      | some err => Outcome.ret ⟨resourceData, tr3, diag.FromErr (some err)⟩
      | none => Outcome.ret ⟨resourceData, tr3, []⟩

/-! ## Package `resource`: users (`user.go`) -/

/-- The sentinel `ErrAllowedToChangeOnlyManualUsers`; its message is built from
the constant `model.UserTypeManual`, which is not in src and is a parameter
here. -/
def ErrAllowedToChangeOnlyManualUsers (UserTypeManual : String) : GoError :=
  GoError.sentinel "resource.ErrAllowedToChangeOnlyManualUsers"
    ("only users of type " ++ UserTypeManual ++ " may be modified")

/-- The schema declared by `User()`. -/
def User : Schema :=
  [(attr.Email, ValueType.TypeString),
   (attr.FirstName, ValueType.TypeString),
   (attr.LastName, ValueType.TypeString),
   (attr.SendInvite, ValueType.TypeBool),
   (attr.IsActive, ValueType.TypeBool),
   (attr.Role, ValueType.TypeString),
   (attr.Type_, ValueType.TypeString),
   (attr.ID, ValueType.TypeString)]

/-- Modelled from the spec: the helper `stringPtr` is not in src; it yields the
present optional field of a `UserUpdate` holding its argument. -/
def stringPtr (s : String) : Option String := some s

/-- Modelled from the spec: the helper `boolPtr` is not in src; it yields the
present optional field of a `UserUpdate` holding its argument. -/
def boolPtr (b : Bool) : Option Bool := some b

/-- The type of the helper `getBooleanFlag(data, attr, defaultValue)`, which is
not in src and is a parameter of the functions that call it. -/
abbrev GetBooleanFlag := ResourceData User → String → Bool → Bool

/-- The type of the helper `ErrAttributeSet(err, attr)`, which is not in src and
is a parameter of the functions that call it. -/
abbrev ErrAttributeSetFn := GoError → String → diag.Diagnostics

def isAllowedToChangeUser (UserTypeManual : String) (data : ResourceData User) :
    Outcome (Option GoError) :=
  match (data.Get attr.Type_).assertString with
  | none => Outcome.panic "interface conversion: not a string"
  | some userType =>
    if userType ≠ UserTypeManual then
      Outcome.ret (some (ErrAllowedToChangeOnlyManualUsers UserTypeManual))
    else
      Outcome.ret none

def convertIsActiveFlag (getBooleanFlag : GetBooleanFlag) (data : ResourceData User) : Bool :=
  getBooleanFlag data attr.IsActive true

/-- One `if data.HasChange(key) { field = stringPtr(data.Get(key).(string)) }`
step of `convertUserUpdate`: the value to store in the field, if any. -/
def changedString (data : ResourceData User) (key : String) : Outcome (Option String) :=
  if data.HasChange key then
    match (data.Get key).assertString with
    | none => Outcome.panic "interface conversion: not a string"
    | some s => Outcome.ret (stringPtr s)
  else
    Outcome.ret none

def convertUserUpdate (getBooleanFlag : GetBooleanFlag) (data : ResourceData User) :
    Outcome model.UserUpdate :=
  match changedString data attr.FirstName with
  | Outcome.panic why => Outcome.panic why
  | Outcome.outOfFuel => Outcome.outOfFuel
  | Outcome.ret firstName =>
    match changedString data attr.LastName with
    | Outcome.panic why => Outcome.panic why
    | Outcome.outOfFuel => Outcome.outOfFuel
    | Outcome.ret lastName =>
      match changedString data attr.Role with
      | Outcome.panic why => Outcome.panic why
      | Outcome.outOfFuel => Outcome.outOfFuel
      | Outcome.ret role =>
        let isActive : Option Bool :=
          if data.HasChange attr.IsActive then
            boolPtr (convertIsActiveFlag getBooleanFlag data)
          else
            none
        Outcome.ret
          { ID := data.Id, FirstName := firstName, LastName := lastName,
            Role := role, IsActive := isActive }

def resourceUserReadHelper (ErrAttributeSet : ErrAttributeSetFn)
    (resourceData : ResourceData User) (user : Option model.User) (err : Option GoError) :
    Outcome (ResourceData User × diag.Diagnostics) :=
  match err with
  | some e =>
    if errorsIs e ErrGraphqlResultIsEmpty then
      Outcome.ret (resourceData.SetId "", [])
    else
      Outcome.ret (resourceData, diag.FromErr (some e))
  | none =>
    match user with
    | none => Outcome.panic "nil pointer dereference"
    | some u =>
      let d0 := resourceData.SetId u.ID
      match d0.Set attr.Email (Value.str u.Email) with
      | Except.error e => Outcome.ret (d0, ErrAttributeSet e attr.Email)
      | Except.ok d1 =>
      match d1.Set attr.FirstName (Value.str u.FirstName) with
      | Except.error e => Outcome.ret (d1, ErrAttributeSet e attr.FirstName)
      | Except.ok d2 =>
      match d2.Set attr.LastName (Value.str u.LastName) with
      | Except.error e => Outcome.ret (d2, ErrAttributeSet e attr.LastName)
      | Except.ok d3 =>
      match d3.Set attr.Role (Value.str u.Role) with
      | Except.error e => Outcome.ret (d3, ErrAttributeSet e attr.Role)
      | Except.ok d4 =>
      match d4.Set attr.Type_ (Value.str u.Type_) with
      | Except.error e => Outcome.ret (d4, ErrAttributeSet e attr.Type_)
      | Except.ok d5 =>
      match d5.Set attr.IsActive (Value.bool u.IsActive) with
      | Except.error e => Outcome.ret (d5, ErrAttributeSet e attr.IsActive)
      | Except.ok d6 => Outcome.ret (d6, [])

/-- Runs `resourceUserReadHelper` as the last step of a lifecycle function. -/
def finishUserRead (ErrAttributeSet : ErrAttributeSetFn) (resourceData : ResourceData User)
    (tr : List Call) (user : Option model.User) (err : Option GoError) :
    Outcome (Result User) :=
  match resourceUserReadHelper ErrAttributeSet resourceData user err with
  | Outcome.ret (d, diags) => Outcome.ret ⟨d, tr, diags⟩
  | Outcome.panic why => Outcome.panic why
  | Outcome.outOfFuel => Outcome.outOfFuel

def userUpdate (UserTypeManual : String) (getBooleanFlag : GetBooleanFlag)
    (ErrAttributeSet : ErrAttributeSetFn) (c : Client) (resourceData : ResourceData User)
    (tr : List Call) : Outcome (Result User) :=
  match isAllowedToChangeUser UserTypeManual resourceData with
  | Outcome.panic why => Outcome.panic why
  | Outcome.outOfFuel => Outcome.outOfFuel
  | Outcome.ret (some err) => Outcome.ret ⟨resourceData, tr, diag.FromErr (some err)⟩
  | Outcome.ret none =>
    match convertUserUpdate getBooleanFlag resourceData with
    | Outcome.panic why => Outcome.panic why
    | Outcome.outOfFuel => Outcome.outOfFuel
    | Outcome.ret req =>
      let tr1 := tr ++ [Call.UpdateUser req]
      match c.UpdateUser tr req with
      | (_, some err) => Outcome.ret ⟨resourceData, tr1, diag.FromErr (some err)⟩
      | (none, none) => Outcome.panic "nil pointer dereference"
      | (some user, none) => finishUserRead ErrAttributeSet resourceData tr1 (some user) none

def userDelete (UserTypeManual : String) (c : Client) (resourceData : ResourceData User)
    (tr : List Call) : Outcome (Result User) :=
  match isAllowedToChangeUser UserTypeManual resourceData with
  | Outcome.panic why => Outcome.panic why
  | Outcome.outOfFuel => Outcome.outOfFuel
  | Outcome.ret (some err) => Outcome.ret ⟨resourceData, tr, diag.FromErr (some err)⟩
  | Outcome.ret none =>
    let tr1 := tr ++ [Call.DeleteUser resourceData.Id]
    match c.DeleteUser tr resourceData.Id with
    | some err => Outcome.ret ⟨resourceData, tr1, diag.FromErr (some err)⟩
    | none => Outcome.ret ⟨resourceData, tr1, []⟩

def userRead (ErrAttributeSet : ErrAttributeSetFn) (c : Client)
    (resourceData : ResourceData User) (tr : List Call) : Outcome (Result User) :=
  let r := c.ReadUser tr resourceData.Id
  finishUserRead ErrAttributeSet resourceData (tr ++ [Call.ReadUser resourceData.Id]) r.1 r.2

end resource

/-! ## Package `datasource` (`connectors.go`, `converter.go`) -/

namespace datasource

open schema client

/-- The `Elem` resource of the `connectors` list declared by `Connectors()`. -/
def ConnectorElem : List (String × ElemType) :=
  [(attr.ID, ElemType.TypeString),
   (attr.Name, ElemType.TypeString),
   (attr.RemoteNetworkID, ElemType.TypeString),
   (attr.StatusUpdatesEnabled, ElemType.TypeBool)]

/-- The schema declared by `Connectors()`. -/
def Connectors : Schema :=
  [(attr.Connectors, ValueType.TypeList ConnectorElem)]

/-- The method `ToTerraform` of `model.Connector` is not in src; it is a
parameter of the functions that call it. -/
abbrev ToTerraformFn := model.Connector → TfObject

/-- The loop of `convertConnectorsToTerraform`. A Go slice is `Option (List _)`
with `none` for nil; `make` yields a non-nil slice, `range` over nil runs no
iteration, and each iteration appends one element. -/
def convertConnectorsToTerraform (ToTerraform : ToTerraformFn)
    (connectors : Option (List model.Connector)) : Option (List TfObject) :=
  some ((connectors.getD []).foldl (fun out connector => out ++ [ToTerraform connector]) [])

def datasourceConnectorsRead (ToTerraform : ToTerraformFn) (c : Client)
    (resourceData : ResourceData Connectors) (tr : List Call) : Outcome (Result Connectors) :=
  let r := c.ReadConnectors tr
  let tr1 := tr ++ [Call.ReadConnectors]
  let fatal : Bool :=
    match r.2 with
    | some err => !errorsIs err ErrGraphqlResultIsEmpty
    | none => false
  if fatal then
    Outcome.ret ⟨resourceData, tr1, diag.FromErr r.2⟩
  else
    match resourceData.Set attr.Connectors
        (Value.list ((convertConnectorsToTerraform ToTerraform r.1).getD [])) with
    | Except.error err => Outcome.ret ⟨resourceData, tr1, diag.FromErr (some err)⟩
    | Except.ok d1 => Outcome.ret ⟨d1.SetId "all-connectors", tr1, []⟩

/-! The other converters of `converter.go` run the same loop over other element
types. The structs `model.Group`, `model.Resource`, `model.ServiceAccount`,
`model.SecurityPolicy` and `model.RemoteNetwork`, and every `ToTerraform`
method, are not in src: the element type, the type of the converted value (an
`interface{}`) and the method are parameters. -/

def convertGroupsToTerraform {Group Out : Type} (ToTerraform : Group → Out)
    (groups : Option (List Group)) : Option (List Out) :=
  some ((groups.getD []).foldl (fun out group => out ++ [ToTerraform group]) [])

def convertResourcesToTerraform {Resource Out : Type} (ToTerraform : Resource → Out)
    (resources : Option (List Resource)) : Option (List Out) :=
  some ((resources.getD []).foldl (fun out res => out ++ [ToTerraform res]) [])

def convertUsersToTerraform {Out : Type} (ToTerraform : model.User → Out)
    (users : Option (List model.User)) : Option (List Out) :=
  some ((users.getD []).foldl (fun out user => out ++ [ToTerraform user]) [])

def convertServicesToTerraform {ServiceAccount Out : Type} (ToTerraform : ServiceAccount → Out)
    (services : Option (List ServiceAccount)) : Option (List Out) :=
  some ((services.getD []).foldl (fun out service => out ++ [ToTerraform service]) [])

def convertSecurityPoliciesToTerraform {SecurityPolicy Out : Type}
    (ToTerraform : SecurityPolicy → Out) (securityPolicies : Option (List SecurityPolicy)) :
    Option (List Out) :=
  some ((securityPolicies.getD []).foldl (fun out policy => out ++ [ToTerraform policy]) [])

def convertRemoteNetworksToTerraform {RemoteNetwork Out : Type}
    (ToTerraform : RemoteNetwork → Out) (remoteNetworks : Option (List RemoteNetwork)) :
    Option (List Out) :=
  some ((remoteNetworks.getD []).foldl
    (fun out remoteNetwork => out ++ [ToTerraform remoteNetwork]) [])

end datasource

/-! ## Package `twingate`: the connector resource (`resource_connector.go`) -/

namespace twingate

open schema

/-- One call of a connector method of the package's `Client`. -/
inductive Call where
  | createConnector (remoteNetworkID : String)
  | readConnector (connectorID : String)
  | deleteConnector (connectorID : String)
  deriving DecidableEq, Repr

/-- The connector methods of `*Client` that the resource functions call, as an
oracle: arbitrary functions of the earlier calls and of the arguments. -/
structure Client where
  createConnector : List Call → String → Option model.Connector × Option GoError
  readConnector : List Call → String → Option model.Connector × Option GoError
  deleteConnector : List Call → String → Option GoError

/-- What a connector resource function leaves behind when it returns. -/
structure ConnectorResult (sch : Schema) where
  data : ResourceData sch
  trace : List Call
  diags : diag.Diagnostics

/-- The schema declared by `resourceConnector()`. -/
def resourceConnector : Schema :=
  [("remote_network_id", ValueType.TypeString),
   ("id", ValueType.TypeString),
   ("name", ValueType.TypeString)]

def resourceConnectorRead (client : Client) (d : ResourceData resourceConnector)
    (tr : List Call) : Outcome (ConnectorResult resourceConnector) :=
  let connectorID := d.Id
  let tr1 := tr ++ [Call.readConnector connectorID]
  match client.readConnector tr connectorID with
  | (_, some err) => Outcome.ret ⟨d, tr1, diag.FromErr (some err)⟩
  | (none, none) => Outcome.panic "nil pointer dereference"
  | (some connector, none) =>
    match d.Set "name" (Value.str connector.Name) with
    | Except.error err =>
        Outcome.ret ⟨d, tr1, diag.FromErr
          (some (GoError.wrapError ("error setting name: " ++ err.Error ++ " ") err))⟩
    | Except.ok d1 => Outcome.ret ⟨d1, tr1, []⟩

def resourceConnectorCreate (client : Client) (d : ResourceData resourceConnector)
    (tr : List Call) : Outcome (ConnectorResult resourceConnector) :=
  match (d.Get "remote_network_id").assertString with
  | none => Outcome.panic "interface conversion: not a string"
  | some remoteNetworkID =>
    let tr1 := tr ++ [Call.createConnector remoteNetworkID]
    match client.createConnector tr remoteNetworkID with
    | (_, some err) => Outcome.ret ⟨d, tr1, diag.FromErr (some err)⟩
    | (none, none) => Outcome.panic "nil pointer dereference"
    | (some connector, none) => resourceConnectorRead client (d.SetId connector.ID) tr1

def resourceConnectorDelete (client : Client) (d : ResourceData resourceConnector)
    (tr : List Call) : Outcome (ConnectorResult resourceConnector) :=
  let connectorID := d.Id
  let tr1 := tr ++ [Call.deleteConnector connectorID]
  match client.deleteConnector tr connectorID with
  | some err => Outcome.ret ⟨d, tr1, diag.FromErr (some err)⟩
  | none => Outcome.ret ⟨d, tr1, []⟩

/-! ### The connector operations of the client

The file that defines `createConnector`, `readConnector`, `updateConnector` and
`deleteConnector` is not in src (only `client_connector_test.go` is). They are
modelled from the specification's sections 3, 4.1 to 4.3 and 7, with the error
messages its scenarios and the tests assert. -/

/-- Modelled from the spec: one GraphQL request posted by a connector
operation (the query text itself is not specified). -/
inductive Request where
  | connectorCreate (remoteNetworkID : String)
  | connectorUpdate (id : String) (name : String)
  | connectorDelete (id : String)
  | connector (id : String)
  | connectors
  deriving DecidableEq, Repr

/-- Modelled from the spec: a decoded mutation envelope `ok, error, entity`
obeying the data model's invariant: `ok=true` carries the entity and no error,
`ok=false` carries the error string and no entity. -/
inductive Envelope (α : Type) where
  | ok (entity : α)
  | failed (error : String)
  deriving DecidableEq, Repr

/-- Modelled from the spec: what the Response Decoder makes of a response body
for the expected top-level field: a JSON parse failure, the field absent or
null, or the decoded value. -/
inductive Decoded (α : Type) where
  | malformed (why : String)
  | absent
  | value (a : α)
  deriving DecidableEq, Repr

/-- Modelled from the spec: the Transport with the Response Decoder behind it.
One application is one POST; the answer may depend on the requests posted
before and is a transport error or the decoded body. -/
structure Transport where
  connectorCreate : List Request → String → Except GoError (Decoded (Envelope model.Connector))
  connectorUpdate : List Request → String → String →
    Except GoError (Decoded (Envelope (Option model.Connector)))
  connectorDelete : List Request → String → Except GoError (Decoded (Envelope Unit))
  connector : List Request → String → Except GoError (Decoded model.Connector)
  connectors : List Request → Except GoError (Decoded (List model.Connector))

/-- Modelled from the spec: the result of a client operation: the returned
value, the returned error and the requests posted so far (oldest first). -/
structure Reply (α : Type) where
  value : α
  err : Option GoError
  posted : List Request
  deriving DecidableEq, Repr

/-- Modelled from the spec: the error of an operation that failed on `cause`,
"failed to VERB connector: CAUSE" or, with a target id, "failed to VERB
connector with id ID: CAUSE". -/
def apiErrorMessage (verb : String) (id : Option String) (cause : String) : String :=
  match id with
  | none => "failed to " ++ verb ++ " connector: " ++ cause
  | some i => "failed to " ++ verb ++ " connector with id " ++ i ++ ": " ++ cause

/-- Modelled from the spec: the error for a response decoded to `r`, if any:
a transport error is wrapped with its message kept verbatim, a parse failure is
a decode error, an absent top-level field is the "query result is empty"
condition wrapping the sentinel. -/
def responseError {α : Type} (verb : String) (id : Option String) :
    Except GoError (Decoded α) → Option GoError
  | Except.error e => some (GoError.wrapError (apiErrorMessage verb id e.Error) e)
  | Except.ok (Decoded.malformed why) => some (GoError.errorString (apiErrorMessage verb id why))
  | Except.ok Decoded.absent =>
      some (GoError.wrapError
        (apiErrorMessage verb id client.ErrGraphqlResultIsEmpty.Error)
        client.ErrGraphqlResultIsEmpty)
  | Except.ok (Decoded.value _) => none

/-- Modelled from the spec: section 4.3 Create(remoteNetworkID). -/
def createConnector (t : Transport) (posted : List Request) (remoteNetworkID : String) :
    Reply (Option model.Connector) :=
  if remoteNetworkID = "" then
    ⟨none, some (GoError.errorString (apiErrorMessage "create" none "network id is empty")), posted⟩
  else
    let posted1 := posted ++ [Request.connectorCreate remoteNetworkID]
    match t.connectorCreate posted remoteNetworkID with
    | Except.ok (Decoded.value (Envelope.ok entity)) => ⟨some entity, none, posted1⟩
    | Except.ok (Decoded.value (Envelope.failed error)) =>
        ⟨none, some (GoError.errorString (apiErrorMessage "create" none error)), posted1⟩
    | r => ⟨none, responseError "create" none r, posted1⟩

/-- Modelled from the spec: section 4.3 Update(id, name). -/
def updateConnector (t : Transport) (posted : List Request) (id name : String) :
    Reply Unit :=
  if id = "" then
    ⟨(), some (GoError.errorString (apiErrorMessage "update" none "connector id is empty")), posted⟩
  else
    let posted1 := posted ++ [Request.connectorUpdate id name]
    match t.connectorUpdate posted id name with
    | Except.ok (Decoded.value (Envelope.ok _)) => ⟨(), none, posted1⟩
    | Except.ok (Decoded.value (Envelope.failed error)) =>
        ⟨(), some (GoError.errorString (apiErrorMessage "update" (some id) error)), posted1⟩
    | r => ⟨(), responseError "update" (some id) r, posted1⟩

/-- Modelled from the spec: section 4.3 Delete(id). -/
def deleteConnector (t : Transport) (posted : List Request) (id : String) : Reply Unit :=
  if id = "" then
    ⟨(), some (GoError.errorString (apiErrorMessage "delete" none "id is empty")), posted⟩
  else
    let posted1 := posted ++ [Request.connectorDelete id]
    match t.connectorDelete posted id with
    | Except.ok (Decoded.value (Envelope.ok _)) => ⟨(), none, posted1⟩
    | Except.ok (Decoded.value (Envelope.failed error)) =>
        ⟨(), some (GoError.errorString (apiErrorMessage "delete" (some id) error)), posted1⟩
    | r => ⟨(), responseError "delete" (some id) r, posted1⟩

/-- Modelled from the spec: section 4.3 Read(id). -/
def readConnector (t : Transport) (posted : List Request) (id : String) :
    Reply (Option model.Connector) :=
  if id = "" then
    ⟨none, some (GoError.errorString (apiErrorMessage "read" none "id is empty")), posted⟩
  else
    let posted1 := posted ++ [Request.connector id]
    match t.connector posted id with
    | Except.ok (Decoded.value entity) => ⟨some entity, none, posted1⟩
    | r => ⟨none, responseError "read" (some id) r, posted1⟩

end twingate

/-! ## Concrete inputs

Resource data and clients at which the statements below are instantiated. -/

namespace sample

open schema client

def refused : GoError := GoError.errorString "request refused"

/-- Service key resource data tracking the key `key-1`. -/
def keyData : ResourceData resource.ServiceKey :=
  { id := "key-1"
    strings := fun k =>
      if k = "name" then "ci"
      else if k = "service_account_id" then "svc-1"
      else if k = "token" then "old-token"
      else ""
    bools := fun _ => false
    lists := fun _ => []
    changed := fun _ => false
    setError := fun _ _ => refused }

def expiredKey : model.ServiceKey :=
  { ID := "key-1", Name := "ci", Service := "svc-1", Token := "", Active := false }

def activeKey : model.ServiceKey :=
  { ID := "key-1", Name := "ci", Service := "svc-1", Token := "", Active := true }

def freshKey : model.ServiceKey :=
  { ID := "key-2", Name := "ci", Service := "svc-1", Token := "new-token", Active := true }

/-- The error a read returns for an entity that is gone: it wraps the
sentinel. -/
def goneError : GoError :=
  GoError.wrapError "failed to read connector with id test: query result is empty"
    ErrGraphqlResultIsEmpty

/-- A client on which every read finds the expired key, deletes and revokes
succeed and a create answers with a fresh active key. -/
def expiredKeyClient : Client :=
  { CreateServiceKey := fun _ _ => (some freshKey, none)
    ReadServiceKey := fun _ _ => (some expiredKey, none)
    UpdateServiceKey := fun _ _ => (none, some refused)
    RevokeServiceKey := fun _ _ => none
    DeleteServiceKey := fun _ _ => none
    ReadUser := fun _ _ => (none, some refused)
    UpdateUser := fun _ _ => (none, some refused)
    DeleteUser := fun _ _ => none
    ReadConnectors := fun _ =>
      (some [{ ID := "c1", Name := "first" }, { ID := "c2", Name := "second" }], none) }

/-- The same client, except that every read finds the key active. -/
def activeKeyClient : Client :=
  { expiredKeyClient with ReadServiceKey := fun _ _ => (some activeKey, none) }

/-- The same client, except that every create fails. -/
def failingCreateClient : Client :=
  { expiredKeyClient with CreateServiceKey := fun _ _ => (none, some refused) }

/-- The same client, except that listing connectors finds nothing. -/
def emptyListClient : Client :=
  { expiredKeyClient with ReadConnectors := fun _ => (none, some goneError) }

/-- User resource data of a user synced from an identity provider, with a
changed first name. -/
def syncedUserData : ResourceData resource.User :=
  { id := "user-1"
    strings := fun k =>
      if k = "type" then "SYNCED"
      else if k = "first_name" then "Ada"
      else ""
    bools := fun _ => false
    lists := fun _ => []
    changed := fun k => decide (k = "first_name")
    setError := fun _ _ => refused }

def storedFlag : resource.GetBooleanFlag := fun d key _ => d.bools key

def attributeSetError : resource.ErrAttributeSetFn := fun err _ => diag.FromErr (some err)

/-- Data of the connectors data source before its first read. -/
def connectorsData : ResourceData datasource.Connectors :=
  { id := ""
    strings := fun _ => ""
    bools := fun _ => false
    lists := fun _ => []
    changed := fun _ => false
    setError := fun _ _ => refused }

def connectorToTerraform : datasource.ToTerraformFn := fun connector =>
  [(attr.ID, Prim.str connector.ID), (attr.Name, Prim.str connector.Name)]

/-- Connector resource data tracking the connector `test`. -/
def connectorData : ResourceData twingate.resourceConnector :=
  { id := "test"
    strings := fun k => if k = "name" then "old-name" else ""
    bools := fun _ => false
    lists := fun _ => []
    changed := fun _ => false
    setError := fun _ _ => refused }

/-- A connector client whose read finds the connector gone. -/
def goneConnectorClient : twingate.Client :=
  { createConnector := fun _ _ => (none, some refused)
    readConnector := fun _ _ => (none, some goneError)
    deleteConnector := fun _ _ => none }

/-- A client whose read of a service key fails with the empty-result error. -/
def goneKeyClient : Client :=
  { expiredKeyClient with ReadServiceKey := fun _ _ => (none, some goneError) }

/-- Connector resource data before the create, attached to network `net-1`. -/
def newConnectorData : ResourceData twingate.resourceConnector :=
  { id := ""
    strings := fun k => if k = "remote_network_id" then "net-1" else ""
    bools := fun _ => false
    lists := fun _ => []
    changed := fun _ => false
    setError := fun _ _ => refused }

/-- A connector client that creates `conn-1` and reads back any connector
under the name `gentle-fox`. -/
def creatingConnectorClient : twingate.Client :=
  { createConnector := fun _ _ => (some { ID := "conn-1", Name := "gentle-fox" }, none)
    readConnector := fun _ id => (some { ID := id, Name := "gentle-fox" }, none)
    deleteConnector := fun _ _ => none }

/-- A transport on which every mutation is answered `ok=false` with the error
`error_1` and every query finds its top-level field null. -/
def refusingTransport : twingate.Transport :=
  { connectorCreate := fun _ _ =>
      Except.ok (twingate.Decoded.value (twingate.Envelope.failed "error_1"))
    connectorUpdate := fun _ _ _ =>
      Except.ok (twingate.Decoded.value (twingate.Envelope.failed "error_1"))
    connectorDelete := fun _ _ =>
      Except.ok (twingate.Decoded.value (twingate.Envelope.failed "error_1"))
    connector := fun _ _ => Except.ok twingate.Decoded.absent
    connectors := fun _ => Except.ok twingate.Decoded.absent }

end sample

/-! ## Theorems -/

section Theorems

open schema client resource

theorem User_get_type (data : ResourceData User) :
    data.Get attr.Type_ = Value.str (data.strings attr.Type_) := rfl

theorem isAllowedToChangeUser_eq (UserTypeManual : String) (data : ResourceData User) :
    isAllowedToChangeUser UserTypeManual data =
      Outcome.ret (if data.strings attr.Type_ = UserTypeManual then none
        else some (ErrAllowedToChangeOnlyManualUsers UserTypeManual)) := by
  unfold isAllowedToChangeUser
  rw [User_get_type]
  simp only [Value.assertString]
  by_cases h : data.strings attr.Type_ = UserTypeManual <;> simp [h]

/-- C1: for every user resource data, `isAllowedToChangeUser` returns no error
exactly when the tracked `type` attribute equals `model.UserTypeManual`, and
returns the sentinel `ErrAllowedToChangeOnlyManualUsers` for every other value
of `type`, the empty string included (when the marker is not itself empty). -/
theorem isAllowedToChangeUser_manual_only (UserTypeManual : String)
    (data : ResourceData User) :
    ∃ userType, data.Get attr.Type_ = Value.str userType ∧
      isAllowedToChangeUser UserTypeManual data =
        Outcome.ret (if userType = UserTypeManual then none
          else some (ErrAllowedToChangeOnlyManualUsers UserTypeManual)) ∧
      (isAllowedToChangeUser UserTypeManual data = Outcome.ret none ↔
        userType = UserTypeManual) ∧
      (userType = "" → UserTypeManual ≠ "" →
        isAllowedToChangeUser UserTypeManual data =
          Outcome.ret (some (ErrAllowedToChangeOnlyManualUsers UserTypeManual))) := by
  refine ⟨data.strings attr.Type_, User_get_type data, isAllowedToChangeUser_eq _ _, ?_, ?_⟩
  · rw [isAllowedToChangeUser_eq]
    by_cases h : data.strings attr.Type_ = UserTypeManual <;> simp [h]
  · intro h1 h2
    rw [isAllowedToChangeUser_eq, h1]
    simp [Ne.symm h2]

theorem errorsIs_self (e : GoError) : errorsIs e e = true := by
  cases e <;> simp [errorsIs]

theorem errorsIs_wrap (msg : String) (e target : GoError) (h : errorsIs e target = true) :
    errorsIs (GoError.wrapError msg e) target = true := by
  simp [errorsIs, h]

theorem ServiceKey_set_token (d : ResourceData ServiceKey) (s : String) :
    d.Set fieldToken (Value.str s) =
      Except.ok { d with strings := fun k => if k = fieldToken then s else d.strings k } := rfl

theorem ServiceKey_set_name (d : ResourceData ServiceKey) (s : String) :
    d.Set fieldName (Value.str s) =
      Except.ok { d with strings := fun k => if k = fieldName then s else d.strings k } := rfl

theorem ServiceKey_set_service (d : ResourceData ServiceKey) (s : String) :
    d.Set fieldServiceID (Value.str s) =
      Except.ok { d with strings := fun k => if k = fieldServiceID then s else d.strings k } := rfl

theorem ServiceKey_get_service (d : ResourceData ServiceKey) :
    d.Get fieldServiceID = Value.str (d.strings fieldServiceID) := rfl

theorem ServiceKey_get_name (d : ResourceData ServiceKey) :
    d.Get fieldName = Value.str (d.strings fieldName) := rfl

theorem ServiceKey_get_token (d : ResourceData ServiceKey) :
    d.Get fieldToken = Value.str (d.strings fieldToken) := rfl

/-- One step of `serviceKeyCreate` on data of the service key schema: the two
`Get` assertions and the `Set` of the token succeed, so the outcome is decided
by the answer to the one `CreateServiceKey` call. -/
theorem serviceKeyCreate_unfold (fuel : Nat) (c : Client) (d : ResourceData ServiceKey)
    (tr : List Call) :
    serviceKeyCreate (fuel + 1) c d tr =
      match c.CreateServiceKey tr (newServiceKey (d.strings fieldServiceID) (d.strings fieldName)) with
      | (_, some err) =>
          Outcome.ret ⟨d, tr ++ [Call.CreateServiceKey
            (newServiceKey (d.strings fieldServiceID) (d.strings fieldName))], diag.FromErr (some err)⟩
      | (none, none) => Outcome.panic "nil pointer dereference"
      | (some k, none) =>
          serviceKeyReadHelper fuel c
            { d with strings := fun x => if x = fieldToken then k.Token else d.strings x }
            (tr ++ [Call.CreateServiceKey
              (newServiceKey (d.strings fieldServiceID) (d.strings fieldName))]) (some k) none := by
  rw [serviceKeyCreate]
  simp only [ServiceKey_get_service, ServiceKey_get_name, Value.assertString]
  rcases h : c.CreateServiceKey tr (newServiceKey (d.strings fieldServiceID) (d.strings fieldName))
    with ⟨p, e⟩
  cases e <;> cases p <;> simp [ServiceKey_set_token]

theorem serviceKeyReadHelper_active (fuel : Nat) (c : Client) (d : ResourceData ServiceKey)
    (tr : List Call) (k : model.ServiceKey) (hk : k.IsActive = true) :
    serviceKeyReadHelper (fuel + 1) c d tr (some k) none =
      Outcome.ret ⟨{ d with
          id := k.ID
          strings := fun x => if x = fieldServiceID then k.Service
            else if x = fieldName then k.Name else d.strings x }, tr, []⟩ := by
  simp [serviceKeyReadHelper, hk, ServiceKey_set_name, ServiceKey_set_service, ResourceData.SetId]

theorem serviceKeyReadHelper_inactive (fuel : Nat) (c : Client) (d : ResourceData ServiceKey)
    (tr : List Call) (k : model.ServiceKey) (hk : k.IsActive = false) :
    serviceKeyReadHelper (fuel + 1) c d tr (some k) none = reCreateServiceKey fuel c d tr := by
  simp [serviceKeyReadHelper, hk]

theorem reCreateServiceKey_unfold (fuel : Nat) (c : Client) (d : ResourceData ServiceKey)
    (tr : List Call) :
    reCreateServiceKey (fuel + 1) c d tr =
      match c.DeleteServiceKey tr d.Id with
      | some err => Outcome.ret ⟨d, tr ++ [Call.DeleteServiceKey d.Id], diag.FromErr (some err)⟩
      | none => serviceKeyCreate fuel c d (tr ++ [Call.DeleteServiceKey d.Id]) := by
  rw [reCreateServiceKey]

/-- Every result of the three mutually recursive functions extends the trace
it was started with. -/
theorem serviceKey_trace_mono (fuel : Nat) :
    (∀ c d tr r, serviceKeyCreate fuel c d tr = Outcome.ret r → tr <+: r.trace) ∧
    (∀ c d tr sk err r, serviceKeyReadHelper fuel c d tr sk err = Outcome.ret r → tr <+: r.trace) ∧
    (∀ c d tr r, reCreateServiceKey fuel c d tr = Outcome.ret r → tr <+: r.trace) := by
  induction fuel with
  | zero =>
    refine ⟨?_, ?_, ?_⟩
    · intro c d tr r h; simp [serviceKeyCreate] at h
    · intro c d tr sk err r h; simp [serviceKeyReadHelper] at h
    · intro c d tr r h; simp [reCreateServiceKey] at h
  | succ n ih =>
    obtain ⟨ihc, ihh, ihr⟩ := ih
    refine ⟨?_, ?_, ?_⟩
    · intro c d tr r h
      rw [serviceKeyCreate_unfold] at h
      rcases hc : c.CreateServiceKey tr
        (newServiceKey (d.strings fieldServiceID) (d.strings fieldName)) with ⟨p, e⟩
      rw [hc] at h
      cases e with
      | some e =>
        simp at h
        subst h
        exact List.prefix_append _ _
      | none =>
        cases p with
        | none => simp at h
        | some k =>
          simp only at h
          exact (List.prefix_append _ _).trans (ihh _ _ _ _ _ _ h)
    · intro c d tr sk err r h
      cases err with
      | some e =>
        by_cases he : errorsIs e ErrGraphqlResultIsEmpty = true
        · simp [serviceKeyReadHelper, he] at h
          subst h; exact List.prefix_refl _
        · simp [serviceKeyReadHelper, he] at h
          subst h; exact List.prefix_refl _
      | none =>
        cases sk with
        | none => simp [serviceKeyReadHelper] at h
        | some k =>
          cases hk : k.IsActive with
          | true =>
            rw [serviceKeyReadHelper_active _ _ _ _ _ hk] at h
            simp at h
            subst h; exact List.prefix_refl _
          | false =>
            rw [serviceKeyReadHelper_inactive _ _ _ _ _ hk] at h
            exact ihr _ _ _ _ h
    · intro c d tr r h
      rw [reCreateServiceKey_unfold] at h
      cases hd : c.DeleteServiceKey tr d.Id with
      | some e =>
        rw [hd] at h
        simp at h
        subst h; exact List.prefix_append _ _
      | none =>
        rw [hd] at h
        simp only at h
        exact (List.prefix_append _ _).trans (ihc _ _ _ _ h)


/-- C2: when the error handed to `serviceKeyReadHelper` or to
`resourceUserReadHelper` is or wraps `client.ErrGraphqlResultIsEmpty`, the
helper sets the resource Id to the empty string, returns nil diagnostics,
issues no client call and writes no other attribute; for every other non-nil
error it returns the error diagnostics of that error and leaves the resource
data, the Id included, unchanged. -/
theorem readHelpers_on_error (fuel : Nat) (c : Client) (d : ResourceData ServiceKey)
    (tr : List Call) (serviceKey : Option model.ServiceKey)
    (ErrAttributeSet : ErrAttributeSetFn) (du : ResourceData User)
    (user : Option model.User) (e : GoError) :
    (errorsIs e ErrGraphqlResultIsEmpty = true →
      (∃ r, serviceKeyReadHelper (fuel + 1) c d tr serviceKey (some e) = Outcome.ret r ∧
        r.data.Id = "" ∧ r.diags = [] ∧ r.trace = tr ∧
        r.data.strings = d.strings ∧ r.data.bools = d.bools ∧ r.data.lists = d.lists) ∧
      (∃ r, resourceUserReadHelper ErrAttributeSet du user (some e) = Outcome.ret r ∧
        r.1.Id = "" ∧ r.2 = [] ∧
        r.1.strings = du.strings ∧ r.1.bools = du.bools ∧ r.1.lists = du.lists)) ∧
    (errorsIs e ErrGraphqlResultIsEmpty = false →
      serviceKeyReadHelper (fuel + 1) c d tr serviceKey (some e) =
        Outcome.ret ⟨d, tr, diag.FromErr (some e)⟩ ∧
      resourceUserReadHelper ErrAttributeSet du user (some e) =
        Outcome.ret (du, diag.FromErr (some e)) ∧
      diag.FromErr (some e) =
        [{ Severity := diag.Severity.Error, Summary := e.Error, Detail := "" }]) := by
  constructor
  · intro h
    refine ⟨⟨⟨d.SetId "", tr, []⟩, ?_, rfl, rfl, rfl, rfl, rfl, rfl⟩,
      ⟨(du.SetId "", []), ?_, rfl, rfl, rfl, rfl, rfl⟩⟩
    · simp [serviceKeyReadHelper, h]
    · simp [resourceUserReadHelper, h]
  · intro h
    refine ⟨?_, ?_, rfl⟩
    · simp [serviceKeyReadHelper, h]
    · simp [resourceUserReadHelper, h]

/-- C2 at a concrete input: an error wrapping the sentinel clears the Id of the
service key data `key-1`, and the plain error `request refused` is returned as
a diagnostic. -/
theorem readHelpers_on_error_witness :
    (∃ r, serviceKeyReadHelper 1 sample.expiredKeyClient sample.keyData [] none
        (some sample.goneError) = Outcome.ret r ∧
      r.data.Id = "" ∧ r.diags = [] ∧ r.trace = []) ∧
    resourceUserReadHelper sample.attributeSetError sample.syncedUserData none
        (some sample.refused) =
      Outcome.ret (sample.syncedUserData, diag.FromErr (some sample.refused)) := by
  have h1 := (readHelpers_on_error 0 sample.expiredKeyClient sample.keyData [] none
    sample.attributeSetError sample.syncedUserData none sample.goneError).1
      (errorsIs_wrap _ _ _ (errorsIs_self _))
  have h2 := (readHelpers_on_error 0 sample.expiredKeyClient sample.keyData [] none
    sample.attributeSetError sample.syncedUserData none sample.refused).2 (by decide)
  obtain ⟨⟨r, hr, hid, hdiag, htr, -⟩, -⟩ := h1
  exact ⟨⟨r, hr, hid, hdiag, htr⟩, h2.2.1⟩

theorem serviceKeyRead_unfold (fuel : Nat) (c : Client) (d : ResourceData ServiceKey)
    (tr : List Call) (k0 : model.ServiceKey)
    (hread : c.ReadServiceKey tr d.Id = (some k0, none)) (hk0 : k0.IsActive = false) :
    serviceKeyRead (fuel + 1) c d tr =
      reCreateServiceKey fuel c d (tr ++ [Call.ReadServiceKey d.Id]) := by
  simp only [serviceKeyRead, hread]
  exact serviceKeyReadHelper_inactive _ _ _ _ _ hk0

/-- Every result of `serviceKeyCreate` has the create call right after the
trace it was started with. -/
theorem serviceKeyCreate_trace (fuel : Nat) (c : Client) (d : ResourceData ServiceKey)
    (tr : List Call) (r : Result ServiceKey)
    (h : serviceKeyCreate fuel c d tr = Outcome.ret r) :
    (tr ++ [Call.CreateServiceKey
      (newServiceKey (d.strings fieldServiceID) (d.strings fieldName))]) <+: r.trace := by
  cases fuel with
  | zero => simp [serviceKeyCreate] at h
  | succ n =>
    rw [serviceKeyCreate_unfold] at h
    rcases hc : c.CreateServiceKey tr
      (newServiceKey (d.strings fieldServiceID) (d.strings fieldName)) with ⟨p, e⟩
    rw [hc] at h
    cases e with
    | some e =>
      simp at h
      subst h
      exact List.prefix_refl _
    | none =>
      cases p with
      | none => simp at h
      | some k =>
        simp only at h
        exact (serviceKey_trace_mono n).2.1 _ _ _ _ _ _ h

/-- The steps of `serviceKeyRead` after reading a key that is not active, with
the create request written as `newServiceKey` of the stored strings. -/
theorem serviceKeyRead_recreate_steps (fuel : Nat) (c : Client)
    (d : ResourceData ServiceKey) (tr : List Call) (k0 : model.ServiceKey)
    (hread : c.ReadServiceKey tr d.Id = (some k0, none)) (hk0 : k0.IsActive = false) :
    (∀ n r, serviceKeyRead n c d tr = Outcome.ret r →
      (tr ++ [Call.ReadServiceKey d.Id, Call.DeleteServiceKey d.Id]) <+: r.trace) ∧
    (∀ e, c.DeleteServiceKey (tr ++ [Call.ReadServiceKey d.Id]) d.Id = some e →
      serviceKeyRead (fuel + 2) c d tr =
        Outcome.ret ⟨d, tr ++ [Call.ReadServiceKey d.Id, Call.DeleteServiceKey d.Id],
          diag.FromErr (some e)⟩) ∧
    (c.DeleteServiceKey (tr ++ [Call.ReadServiceKey d.Id]) d.Id = none →
      (∀ n r, serviceKeyRead n c d tr = Outcome.ret r →
        (tr ++ [Call.ReadServiceKey d.Id, Call.DeleteServiceKey d.Id,
          Call.CreateServiceKey
            (newServiceKey (d.strings fieldServiceID) (d.strings fieldName))]) <+: r.trace) ∧
      (∀ k, c.CreateServiceKey (tr ++ [Call.ReadServiceKey d.Id, Call.DeleteServiceKey d.Id])
            (newServiceKey (d.strings fieldServiceID) (d.strings fieldName)) = (some k, none) →
          k.IsActive = true →
          ∃ r, serviceKeyRead (fuel + 4) c d tr = Outcome.ret r ∧
            r.trace = tr ++ [Call.ReadServiceKey d.Id, Call.DeleteServiceKey d.Id,
              Call.CreateServiceKey
                (newServiceKey (d.strings fieldServiceID) (d.strings fieldName))] ∧
            r.diags = [] ∧
            r.data.Id = k.ID ∧
            r.data.Get fieldToken = Value.str k.Token)) := by
  have happ : tr ++ [Call.ReadServiceKey d.Id] ++ [Call.DeleteServiceKey d.Id] =
      tr ++ [Call.ReadServiceKey d.Id, Call.DeleteServiceKey d.Id] := by simp
  have happ3 : ∀ x : Call, tr ++ [Call.ReadServiceKey d.Id, Call.DeleteServiceKey d.Id] ++ [x] =
      tr ++ [Call.ReadServiceKey d.Id, Call.DeleteServiceKey d.Id, x] := by intro x; simp
  refine ⟨?_, ?_, ?_⟩
  · intro n r h
    cases n with
    | zero => simp [serviceKeyRead, serviceKeyReadHelper] at h
    | succ m =>
      rw [serviceKeyRead_unfold _ _ _ _ _ hread hk0] at h
      cases m with
      | zero => simp [reCreateServiceKey] at h
      | succ p =>
        rw [reCreateServiceKey_unfold] at h
        cases hd : c.DeleteServiceKey (tr ++ [Call.ReadServiceKey d.Id]) d.Id with
        | some e =>
          rw [hd] at h
          simp at h
          subst h
          simp
        | none =>
          rw [hd] at h
          simp only at h
          have := (serviceKey_trace_mono p).1 _ _ _ _ h
          rwa [happ] at this
  · intro e hd
    rw [serviceKeyRead_unfold _ _ _ _ _ hread hk0, reCreateServiceKey_unfold, hd]
    simp
  · intro hd
    constructor
    · intro n r h
      cases n with
      | zero => simp [serviceKeyRead, serviceKeyReadHelper] at h
      | succ m =>
        rw [serviceKeyRead_unfold _ _ _ _ _ hread hk0] at h
        cases m with
        | zero => simp [reCreateServiceKey] at h
        | succ p =>
          rw [reCreateServiceKey_unfold, hd] at h
          simp only at h
          have := serviceKeyCreate_trace _ _ _ _ _ h
          rwa [happ, happ3] at this
    · intro k hc hk
      rw [serviceKeyRead_unfold _ _ _ _ _ hread hk0, reCreateServiceKey_unfold, hd]
      simp only
      rw [happ, serviceKeyCreate_unfold, hc]
      simp only
      rw [serviceKeyReadHelper_active _ _ _ _ _ hk, happ3]
      exact ⟨_, rfl, rfl, rfl, rfl, rfl⟩

/-- C3: when `serviceKeyRead` reads a key that is not active, it calls
`DeleteServiceKey` on the current resource Id; if that delete fails, its error
is returned and no create is issued; if it succeeds, `CreateServiceKey` is
called next with a key whose Service and Name are the `service_account_id` and
`name` that `Get` returns for the resource data (its other fields are zero),
and when that create answers with an active key the final Id and token are the
new key's. -/
theorem serviceKeyRead_recreates_inactive (fuel : Nat) (c : Client)
    (d : ResourceData ServiceKey) (tr : List Call) (k0 : model.ServiceKey)
    (hread : c.ReadServiceKey tr d.Id = (some k0, none)) (hk0 : k0.IsActive = false) :
    (d.Get fieldServiceID = Value.str (d.strings fieldServiceID) ∧
      d.Get fieldName = Value.str (d.strings fieldName)) ∧
    (∀ n r, serviceKeyRead n c d tr = Outcome.ret r →
      (tr ++ [Call.ReadServiceKey d.Id, Call.DeleteServiceKey d.Id]) <+: r.trace) ∧
    (∀ e, c.DeleteServiceKey (tr ++ [Call.ReadServiceKey d.Id]) d.Id = some e →
      serviceKeyRead (fuel + 2) c d tr =
        Outcome.ret ⟨d, tr ++ [Call.ReadServiceKey d.Id, Call.DeleteServiceKey d.Id],
          diag.FromErr (some e)⟩) ∧
    (c.DeleteServiceKey (tr ++ [Call.ReadServiceKey d.Id]) d.Id = none →
      (∀ n r, serviceKeyRead n c d tr = Outcome.ret r →
        (tr ++ [Call.ReadServiceKey d.Id, Call.DeleteServiceKey d.Id,
          Call.CreateServiceKey
            { ID := "", Name := d.strings fieldName, Service := d.strings fieldServiceID,
              Token := "", Active := false }]) <+: r.trace) ∧
      (∀ p e, c.CreateServiceKey (tr ++ [Call.ReadServiceKey d.Id, Call.DeleteServiceKey d.Id])
            { ID := "", Name := d.strings fieldName, Service := d.strings fieldServiceID,
              Token := "", Active := false } = (p, some e) →
          serviceKeyRead (fuel + 3) c d tr =
            Outcome.ret ⟨d, tr ++ [Call.ReadServiceKey d.Id, Call.DeleteServiceKey d.Id,
              Call.CreateServiceKey
                { ID := "", Name := d.strings fieldName, Service := d.strings fieldServiceID,
                  Token := "", Active := false }],
              diag.FromErr (some e)⟩) ∧
      (∀ k, c.CreateServiceKey (tr ++ [Call.ReadServiceKey d.Id, Call.DeleteServiceKey d.Id])
            { ID := "", Name := d.strings fieldName, Service := d.strings fieldServiceID,
              Token := "", Active := false } = (some k, none) →
          k.IsActive = true →
          ∃ r, serviceKeyRead (fuel + 4) c d tr = Outcome.ret r ∧
            r.trace = tr ++ [Call.ReadServiceKey d.Id, Call.DeleteServiceKey d.Id,
              Call.CreateServiceKey
                { ID := "", Name := d.strings fieldName, Service := d.strings fieldServiceID,
                  Token := "", Active := false }] ∧
            r.diags = [] ∧
            r.data.Id = k.ID ∧
            r.data.Get fieldToken = Value.str k.Token)) := by
  have hreq : newServiceKey (d.strings fieldServiceID) (d.strings fieldName) =
      { ID := "", Name := d.strings fieldName, Service := d.strings fieldServiceID,
        Token := "", Active := false } := rfl
  obtain ⟨h1, h2, h3⟩ := serviceKeyRead_recreate_steps fuel c d tr k0 hread hk0
  refine ⟨⟨rfl, rfl⟩, h1, h2, fun hd => ?_⟩
  obtain ⟨h4, h5⟩ := h3 hd
  rw [hreq] at h4 h5
  refine ⟨h4, ?_, h5⟩
  intro p e hc
  have happ : tr ++ [Call.ReadServiceKey d.Id] ++ [Call.DeleteServiceKey d.Id] =
      tr ++ [Call.ReadServiceKey d.Id, Call.DeleteServiceKey d.Id] := by simp
  have happ3 : ∀ x : Call, tr ++ [Call.ReadServiceKey d.Id, Call.DeleteServiceKey d.Id] ++ [x] =
      tr ++ [Call.ReadServiceKey d.Id, Call.DeleteServiceKey d.Id, x] := by intro x; simp
  rw [serviceKeyRead_unfold _ _ _ _ _ hread hk0, reCreateServiceKey_unfold, hd]
  simp only
  rw [happ, serviceKeyCreate_unfold, hreq, hc, happ3]
  cases p <;> rfl

/-- C3 at a concrete input: reading `key-1` on a client that finds it expired
deletes it, creates a key for the stored service account `svc-1` and name `ci`,
and ends with the id and token of the new key `key-2`. -/
theorem serviceKeyRead_recreates_inactive_witness :
    ∃ r, serviceKeyRead 4 sample.expiredKeyClient sample.keyData [] = Outcome.ret r ∧
      r.trace = [Call.ReadServiceKey "key-1", Call.DeleteServiceKey "key-1",
        Call.CreateServiceKey
          { ID := "", Name := "ci", Service := "svc-1", Token := "", Active := false }] ∧
      r.diags = [] ∧
      r.data.Id = "key-2" ∧
      r.data.Get fieldToken = Value.str "new-token" :=
  ((serviceKeyRead_recreates_inactive 0 sample.expiredKeyClient sample.keyData []
    sample.expiredKey rfl rfl).2.2.2 rfl).2.2 sample.freshKey rfl rfl

/-- C4, the claim as stated fails: on a client whose read finds the key `key-1`
already inactive, `serviceKeyDelete` issues the read and the delete only; no
`RevokeServiceKey` call precedes the `DeleteServiceKey` call. -/
theorem serviceKeyDelete_inactive_not_revoked :
    sample.expiredKeyClient.ReadServiceKey [] sample.keyData.Id =
      (some sample.expiredKey, none) ∧
    sample.expiredKey.IsActive = false ∧
    ∃ r, serviceKeyDelete sample.expiredKeyClient sample.keyData [] = Outcome.ret r ∧
      r.trace = [Call.ReadServiceKey "key-1", Call.DeleteServiceKey "key-1"] ∧
      Call.RevokeServiceKey "key-1" ∉ r.trace :=
  ⟨rfl, rfl, ⟨sample.keyData,
    [Call.ReadServiceKey "key-1", Call.DeleteServiceKey "key-1"], []⟩, rfl, rfl, by decide⟩

/-- C4 as amended: in `serviceKeyDelete`, when the key read from the server is
active, a `RevokeServiceKey` call on the resource Id precedes the
`DeleteServiceKey` call (and a failed revoke ends the operation before any
delete); when the key read is already inactive, no revoke is issued and the
`DeleteServiceKey` call on the resource Id directly follows the read. -/
theorem serviceKeyDelete_revokes_active_key (c : Client) (d : ResourceData ServiceKey)
    (tr : List Call) (k : model.ServiceKey)
    (hread : c.ReadServiceKey tr d.Id = (some k, none)) :
    (k.IsActive = true →
      (∀ e, c.RevokeServiceKey (tr ++ [Call.ReadServiceKey d.Id]) d.Id = some e →
        serviceKeyDelete c d tr =
          Outcome.ret ⟨d, tr ++ [Call.ReadServiceKey d.Id, Call.RevokeServiceKey d.Id],
            diag.FromErr (some e)⟩) ∧
      (c.RevokeServiceKey (tr ++ [Call.ReadServiceKey d.Id]) d.Id = none →
        ∃ r, serviceKeyDelete c d tr = Outcome.ret r ∧
          r.trace = tr ++ [Call.ReadServiceKey d.Id, Call.RevokeServiceKey d.Id,
            Call.DeleteServiceKey d.Id])) ∧
    (k.IsActive = false →
      ∃ r, serviceKeyDelete c d tr = Outcome.ret r ∧
        r.trace = tr ++ [Call.ReadServiceKey d.Id, Call.DeleteServiceKey d.Id]) := by
  refine ⟨fun hk => ⟨?_, ?_⟩, fun hk => ?_⟩
  · intro e hrev
    simp [serviceKeyDelete, hread, hk, hrev]
  · intro hrev
    cases hdel : c.DeleteServiceKey
        (tr ++ [Call.ReadServiceKey d.Id, Call.RevokeServiceKey d.Id]) d.Id <;>
      simp [serviceKeyDelete, hread, hk, hrev, hdel]
  · cases hdel : c.DeleteServiceKey (tr ++ [Call.ReadServiceKey d.Id]) d.Id <;>
      simp [serviceKeyDelete, hread, hk, hdel]

/-- C4 as amended, at a concrete input: deleting `key-1` on a client whose read
finds it active issues read, revoke and delete in this order. -/
theorem serviceKeyDelete_revokes_active_key_witness :
    ∃ r, serviceKeyDelete sample.activeKeyClient sample.keyData [] = Outcome.ret r ∧
      r.trace = [Call.ReadServiceKey "key-1", Call.RevokeServiceKey "key-1",
        Call.DeleteServiceKey "key-1"] :=
  ((serviceKeyDelete_revokes_active_key sample.activeKeyClient sample.keyData []
    sample.activeKey rfl).1 rfl).2 rfl

/-- C5: when `CreateServiceKey` succeeds with an active key `k`,
`serviceKeyCreate` issues exactly that one client call and leaves token, Id,
name and service_account_id equal to the key's Token, ID, Name and Service;
when `CreateServiceKey` fails, its error is returned as diagnostics and the
resource data is unchanged. -/
theorem serviceKeyCreate_stores_key (fuel : Nat) (c : Client) (d : ResourceData ServiceKey)
    (tr : List Call) :
    (∀ k, c.CreateServiceKey tr
          (newServiceKey (d.strings fieldServiceID) (d.strings fieldName)) = (some k, none) →
        k.IsActive = true →
        ∃ r, serviceKeyCreate (fuel + 2) c d tr = Outcome.ret r ∧
          r.trace = tr ++ [Call.CreateServiceKey
            (newServiceKey (d.strings fieldServiceID) (d.strings fieldName))] ∧
          r.diags = [] ∧
          r.data.Get fieldToken = Value.str k.Token ∧
          r.data.Id = k.ID ∧
          r.data.Get fieldName = Value.str k.Name ∧
          r.data.Get fieldServiceID = Value.str k.Service) ∧
    (∀ p e, c.CreateServiceKey tr
          (newServiceKey (d.strings fieldServiceID) (d.strings fieldName)) = (p, some e) →
        serviceKeyCreate (fuel + 1) c d tr =
          Outcome.ret ⟨d, tr ++ [Call.CreateServiceKey
            (newServiceKey (d.strings fieldServiceID) (d.strings fieldName))],
            diag.FromErr (some e)⟩) := by
  constructor
  · intro k hc hk
    rw [serviceKeyCreate_unfold, hc]
    simp only
    rw [serviceKeyReadHelper_active _ _ _ _ _ hk]
    exact ⟨_, rfl, rfl, rfl, rfl, rfl, rfl, rfl⟩
  · intro p e hc
    rw [serviceKeyCreate_unfold, hc]
    cases p <;> rfl

/-- C5 at a concrete input: creating on a client that answers with the active
key `key-2` stores its token and id after one call, and a failing create
leaves the data of `key-1` as it was. -/
theorem serviceKeyCreate_stores_key_witness :
    (∃ r, serviceKeyCreate 2 sample.expiredKeyClient sample.keyData [] = Outcome.ret r ∧
      r.trace = [Call.CreateServiceKey (newServiceKey "svc-1" "ci")] ∧
      r.diags = [] ∧
      r.data.Get fieldToken = Value.str "new-token" ∧
      r.data.Id = "key-2" ∧
      r.data.Get fieldName = Value.str "ci" ∧
      r.data.Get fieldServiceID = Value.str "svc-1") ∧
    serviceKeyCreate 1 sample.failingCreateClient sample.keyData [] =
      Outcome.ret ⟨sample.keyData, [Call.CreateServiceKey (newServiceKey "svc-1" "ci")],
        diag.FromErr (some sample.refused)⟩ :=
  ⟨(serviceKeyCreate_stores_key 0 sample.expiredKeyClient sample.keyData []).1
      sample.freshKey rfl rfl,
   (serviceKeyCreate_stores_key 0 sample.failingCreateClient sample.keyData []).2
      none sample.refused rfl⟩

theorem changedString_eq (data : ResourceData User) (key : String)
    (hkey : List.lookup key User = some ValueType.TypeString) :
    changedString data key =
      Outcome.ret (if data.HasChange key = true then some (data.strings key) else none) := by
  unfold changedString
  have hget : data.Get key = Value.str (data.strings key) := by
    simp [ResourceData.Get, hkey]
  rw [hget]
  cases data.HasChange key <;> simp [Value.assertString, stringPtr]

theorem convertUserUpdate_eq (getBooleanFlag : GetBooleanFlag) (data : ResourceData User) :
    convertUserUpdate getBooleanFlag data =
      Outcome.ret
        { ID := data.Id
          FirstName :=
            if data.HasChange attr.FirstName = true then some (data.strings attr.FirstName)
            else none
          LastName :=
            if data.HasChange attr.LastName = true then some (data.strings attr.LastName)
            else none
          Role := if data.HasChange attr.Role = true then some (data.strings attr.Role) else none
          IsActive :=
            if data.HasChange attr.IsActive = true then
              some (convertIsActiveFlag getBooleanFlag data)
            else none } := by
  unfold convertUserUpdate
  rw [changedString_eq data attr.FirstName rfl, changedString_eq data attr.LastName rfl,
    changedString_eq data attr.Role rfl]
  rfl

/-- C6: for every user resource data, `convertUserUpdate` returns a
`UserUpdate` whose ID is the resource Id and in which FirstName, LastName, Role
and IsActive are present exactly when `first_name`, `last_name`, `role` and
`is_active` have changed; a present field holds the attribute's current value
(for IsActive the value `convertIsActiveFlag` reads, which is the stored one
whenever `getBooleanFlag` returns the stored flag), and when no attribute
changed every optional field is absent. -/
theorem convertUserUpdate_only_changed (getBooleanFlag : GetBooleanFlag)
    (data : ResourceData User) :
    ∃ u, convertUserUpdate getBooleanFlag data = Outcome.ret u ∧
      u.ID = data.Id ∧
      (u.FirstName.isSome = data.HasChange attr.FirstName ∧
        ∀ v, u.FirstName = some v → data.Get attr.FirstName = Value.str v) ∧
      (u.LastName.isSome = data.HasChange attr.LastName ∧
        ∀ v, u.LastName = some v → data.Get attr.LastName = Value.str v) ∧
      (u.Role.isSome = data.HasChange attr.Role ∧
        ∀ v, u.Role = some v → data.Get attr.Role = Value.str v) ∧
      (u.IsActive.isSome = data.HasChange attr.IsActive ∧
        (∀ v, u.IsActive = some v → v = convertIsActiveFlag getBooleanFlag data) ∧
        (∀ v, u.IsActive = some v →
          getBooleanFlag data attr.IsActive true = data.bools attr.IsActive →
          data.Get attr.IsActive = Value.bool v)) ∧
      (data.HasChange attr.FirstName = false → data.HasChange attr.LastName = false →
        data.HasChange attr.Role = false → data.HasChange attr.IsActive = false →
        u = { ID := data.Id, FirstName := none, LastName := none, Role := none,
              IsActive := none }) := by
  refine ⟨_, convertUserUpdate_eq getBooleanFlag data, rfl, ?_, ?_, ?_, ?_, ?_⟩
  · cases h : data.HasChange attr.FirstName
    · simp
    · simp only [if_true, Option.isSome_some, true_and]
      intro v hv
      cases hv
      rfl
  · cases h : data.HasChange attr.LastName
    · simp
    · simp only [if_true, Option.isSome_some, true_and]
      intro v hv
      cases hv
      rfl
  · cases h : data.HasChange attr.Role
    · simp
    · simp only [if_true, Option.isSome_some, true_and]
      intro v hv
      cases hv
      rfl
  · cases h : data.HasChange attr.IsActive
    · simp
    · simp only [if_true, Option.isSome_some, true_and]
      refine ⟨fun v hv => by cases hv; rfl, fun v hv hflag => ?_⟩
      cases hv
      show Value.bool (data.bools attr.IsActive) = _
      rw [convertIsActiveFlag, hflag]
  · intro h1 h2 h3 h4
    simp [h1, h2, h3, h4]

/-- C7: whenever the tracked `type` attribute is not `model.UserTypeManual`,
`userUpdate` and `userDelete` return the error diagnostics of
`ErrAllowedToChangeOnlyManualUsers`, issue no client call and leave the
resource data unchanged, whatever the client answers. -/
theorem user_change_rejected_unless_manual (UserTypeManual : String)
    (getBooleanFlag : GetBooleanFlag) (ErrAttributeSet : ErrAttributeSetFn) (c : Client)
    (d : ResourceData User) (tr : List Call)
    (htype : d.Get attr.Type_ ≠ Value.str UserTypeManual) :
    userUpdate UserTypeManual getBooleanFlag ErrAttributeSet c d tr =
      Outcome.ret ⟨d, tr,
        diag.FromErr (some (ErrAllowedToChangeOnlyManualUsers UserTypeManual))⟩ ∧
    userDelete UserTypeManual c d tr =
      Outcome.ret ⟨d, tr,
        diag.FromErr (some (ErrAllowedToChangeOnlyManualUsers UserTypeManual))⟩ := by
  have hne : d.strings attr.Type_ ≠ UserTypeManual := by
    intro h
    exact htype (by rw [User_get_type, h])
  constructor
  · simp [userUpdate, isAllowedToChangeUser_eq, hne]
  · simp [userDelete, isAllowedToChangeUser_eq, hne]

/-- C7 at a concrete input: with the marker `MANUAL`, updating or deleting the
user `user-1` of type `SYNCED` is rejected before any client call. -/
theorem user_change_rejected_unless_manual_witness :
    userUpdate "MANUAL" sample.storedFlag sample.attributeSetError sample.expiredKeyClient
        sample.syncedUserData [] =
      Outcome.ret ⟨sample.syncedUserData, [],
        diag.FromErr (some (ErrAllowedToChangeOnlyManualUsers "MANUAL"))⟩ ∧
    userDelete "MANUAL" sample.expiredKeyClient sample.syncedUserData [] =
      Outcome.ret ⟨sample.syncedUserData, [],
        diag.FromErr (some (ErrAllowedToChangeOnlyManualUsers "MANUAL"))⟩ :=
  user_change_rejected_unless_manual "MANUAL" sample.storedFlag sample.attributeSetError
    sample.expiredKeyClient sample.syncedUserData [] (by decide)

/-- Whatever error `readConnector` returns, `resourceConnectorRead` returns it
as diagnostics and leaves the resource data as it was. -/
theorem resourceConnectorRead_on_error (client : twingate.Client)
    (d : ResourceData twingate.resourceConnector) (tr : List twingate.Call)
    (p : Option model.Connector) (e : GoError)
    (hread : client.readConnector tr d.Id = (p, some e)) :
    twingate.resourceConnectorRead client d tr =
      Outcome.ret ⟨d, tr ++ [twingate.Call.readConnector d.Id], diag.FromErr (some e)⟩ := by
  unfold twingate.resourceConnectorRead
  simp only [hread]

/-- C8, the code at the failing input: the client's `readConnector` fails on
the connector `test` with an error that wraps the empty-result sentinel, and
`resourceConnectorRead` neither clears the Id nor returns nil; it returns that
error as an error diagnostic, as it does for every other read failure. -/
theorem resourceConnectorRead_keeps_gone_connector :
    errorsIs sample.goneError client.ErrGraphqlResultIsEmpty = true ∧
    sample.goneConnectorClient.readConnector [] sample.connectorData.Id =
      (none, some sample.goneError) ∧
    ∃ r, twingate.resourceConnectorRead sample.goneConnectorClient sample.connectorData [] =
        Outcome.ret r ∧
      r.data.Id = "test" ∧
      r.diags = [{ Severity := diag.Severity.Error,
                   Summary := "failed to read connector with id test: query result is empty",
                   Detail := "" }] ∧
      diag.HasError r.diags = true :=
  ⟨by decide, rfl,
    ⟨sample.connectorData, [twingate.Call.readConnector "test"],
      diag.FromErr (some sample.goneError)⟩, rfl, rfl, rfl, by decide⟩

theorem foldl_append_singleton {α β : Type} (f : α → β) (l : List α) (acc : List β) :
    l.foldl (fun out x => out ++ [f x]) acc = acc ++ l.map f := by
  induction l generalizing acc with
  | nil => simp
  | cons x xs ih => simp [ih]

theorem convertConnectorsToTerraform_eq_map (ToTerraform : datasource.ToTerraformFn)
    (connectors : Option (List model.Connector)) :
    datasource.convertConnectorsToTerraform ToTerraform connectors =
      some ((connectors.getD []).map ToTerraform) := by
  simp [datasource.convertConnectorsToTerraform, foldl_append_singleton]

theorem Connectors_set (d : ResourceData datasource.Connectors) (items : List TfObject) :
    d.Set attr.Connectors (Value.list items) =
      if items.all (conforms datasource.ConnectorElem) = true then
        Except.ok { d with lists := fun k => if k = attr.Connectors then items else d.lists k }
      else
        Except.error (d.setError attr.Connectors (Value.list items)) :=
  rfl

/-- C9: provided every object `ToTerraform` builds fits the element schema of
the `connectors` list (so that the SDK accepts the write),
`datasourceConnectorsRead` behaves as follows. When `ReadConnectors` returns no
error, or an error that is `client.ErrGraphqlResultIsEmpty`, it returns no
diagnostics, writes the converted list to `connectors` (the empty list when no
connectors came back) and sets the Id to `all-connectors`; `Get` then reads
each written object back with the four keys of the element schema, which is
the converted list itself when `ToTerraform` builds objects of that shape. When
`ReadConnectors` returns any other error, that error is returned as
diagnostics and neither `connectors` nor the Id is written. -/
theorem datasourceConnectorsRead_tolerates_empty (ToTerraform : datasource.ToTerraformFn)
    (c : Client) (d : ResourceData datasource.Connectors) (tr : List Call)
    (hfit : ∀ connector, conforms datasource.ConnectorElem (ToTerraform connector) = true) :
    (((c.ReadConnectors tr).2 = none ∨
        ∃ e, (c.ReadConnectors tr).2 = some e ∧ errorsIs e ErrGraphqlResultIsEmpty = true) →
      ∃ r, datasource.datasourceConnectorsRead ToTerraform c d tr = Outcome.ret r ∧
        r.diags = [] ∧
        r.trace = tr ++ [Call.ReadConnectors] ∧
        r.data.lists attr.Connectors = ((c.ReadConnectors tr).1.getD []).map ToTerraform ∧
        r.data.Get attr.Connectors =
          Value.list (((c.ReadConnectors tr).1.getD []).map
            fun connector => readBack datasource.ConnectorElem (ToTerraform connector)) ∧
        ((∀ connector,
            readBack datasource.ConnectorElem (ToTerraform connector) = ToTerraform connector) →
          r.data.Get attr.Connectors =
            Value.list (((c.ReadConnectors tr).1.getD []).map ToTerraform)) ∧
        ((c.ReadConnectors tr).1.getD [] = [] →
          r.data.lists attr.Connectors = [] ∧ r.data.Get attr.Connectors = Value.list []) ∧
        r.data.Id = "all-connectors" ∧
        r.data.strings = d.strings ∧ r.data.bools = d.bools) ∧
    (∀ e, (c.ReadConnectors tr).2 = some e → errorsIs e ErrGraphqlResultIsEmpty = false →
      datasource.datasourceConnectorsRead ToTerraform c d tr =
        Outcome.ret ⟨d, tr ++ [Call.ReadConnectors], diag.FromErr (some e)⟩) := by
  have hall : ∀ l : List model.Connector,
      (l.map ToTerraform).all (conforms datasource.ConnectorElem) = true := by
    intro l
    simp [List.all_eq_true, hfit]
  constructor
  · intro h
    have hfatal : (match (c.ReadConnectors tr).2 with
        | some err => !errorsIs err ErrGraphqlResultIsEmpty
        | none => false) = false := by
      rcases h with h | ⟨e, he, his⟩
      · rw [h]
      · rw [he]; simp [his]
    have hrun : datasource.datasourceConnectorsRead ToTerraform c d tr =
        Outcome.ret ⟨ResourceData.SetId
          { d with
            lists := (fun k =>
              if k = attr.Connectors then ((c.ReadConnectors tr).1.getD []).map ToTerraform
              else d.lists k) }
          "all-connectors",
          tr ++ [Call.ReadConnectors], []⟩ := by
      unfold datasource.datasourceConnectorsRead
      simp only [hfatal, convertConnectorsToTerraform_eq_map, Option.getD_some, Connectors_set,
        hall]
      simp
    have hget : (ResourceData.SetId
          { d with
            lists := (fun k =>
              if k = attr.Connectors then ((c.ReadConnectors tr).1.getD []).map ToTerraform
              else d.lists k) }
          "all-connectors" : ResourceData datasource.Connectors).Get attr.Connectors =
        Value.list (((c.ReadConnectors tr).1.getD []).map
          fun connector => readBack datasource.ConnectorElem (ToTerraform connector)) := by
      show Value.list ((((c.ReadConnectors tr).1.getD []).map ToTerraform).map
        (readBack datasource.ConnectorElem)) = _
      rw [List.map_map]
      rfl
    rw [hrun]
    refine ⟨_, rfl, rfl, rfl, rfl, hget, ?_, ?_, rfl, rfl, rfl⟩
    · intro hshape
      rw [hget]
      congr 1
      exact List.map_congr_left (fun connector _ => hshape connector)
    · intro hnil
      refine ⟨?_, ?_⟩
      · show ((c.ReadConnectors tr).1.getD []).map ToTerraform = []
        rw [hnil]
        rfl
      · rw [hget, hnil]
        rfl
  · intro e he his
    unfold datasource.datasourceConnectorsRead
    simp [he, his]

/-- C9 at a concrete input: two connectors are written in the order received,
read back with the four keys of the element schema, and the Id becomes
`all-connectors`; an empty-result error gives the empty list. -/
theorem datasourceConnectorsRead_tolerates_empty_witness :
    (∃ r, datasource.datasourceConnectorsRead sample.connectorToTerraform
        sample.expiredKeyClient sample.connectorsData [] = Outcome.ret r ∧
      r.diags = [] ∧
      r.data.lists attr.Connectors =
        [[("id", Prim.str "c1"), ("name", Prim.str "first")],
         [("id", Prim.str "c2"), ("name", Prim.str "second")]] ∧
      r.data.Get attr.Connectors = Value.list
        [[("id", Prim.str "c1"), ("name", Prim.str "first"),
          ("remote_network_id", Prim.str ""), ("status_updates_enabled", Prim.bool false)],
         [("id", Prim.str "c2"), ("name", Prim.str "second"),
          ("remote_network_id", Prim.str ""), ("status_updates_enabled", Prim.bool false)]] ∧
      r.data.Id = "all-connectors") ∧
    (∃ r, datasource.datasourceConnectorsRead sample.connectorToTerraform
        sample.emptyListClient sample.connectorsData [] = Outcome.ret r ∧
      r.diags = [] ∧
      r.data.Get attr.Connectors = Value.list [] ∧
      r.data.Id = "all-connectors") := by
  have hfit : ∀ connector,
      conforms datasource.ConnectorElem (sample.connectorToTerraform connector) = true :=
    fun _ => rfl
  obtain ⟨r1, h1, hd1, -, hl1, hg1, -, -, hi1, -⟩ :=
    (datasourceConnectorsRead_tolerates_empty sample.connectorToTerraform
      sample.expiredKeyClient sample.connectorsData [] hfit).1 (Or.inl rfl)
  obtain ⟨r2, h2, hd2, -, -, -, -, hg2, hi2, -⟩ :=
    (datasourceConnectorsRead_tolerates_empty sample.connectorToTerraform
      sample.emptyListClient sample.connectorsData [] hfit).1
      (Or.inr ⟨sample.goneError, rfl, by decide⟩)
  refine ⟨⟨r1, h1, hd1, ?_, ?_, hi1⟩, ⟨r2, h2, hd2, (hg2 rfl).2, hi2⟩⟩
  · rw [hl1]
    rfl
  · rw [hg1]
    rfl

/-- C10: whatever the transport would answer, the connector operations called
with an empty identifier fail validation and post nothing: `readConnector`
with exactly "failed to read connector: id is empty" and a nil connector,
`updateConnector` with exactly "failed to update connector: connector id is
empty", `deleteConnector` with exactly "failed to delete connector: id is
empty" and `createConnector` with exactly "failed to create connector: network
id is empty" and a nil connector. -/
theorem connector_operations_reject_empty_id (t : twingate.Transport)
    (posted : List twingate.Request) (name : String) :
    ((twingate.readConnector t posted "").value = none ∧
      (twingate.readConnector t posted "").err.map GoError.Error =
        some "failed to read connector: id is empty" ∧
      (twingate.readConnector t posted "").posted = posted) ∧
    ((twingate.updateConnector t posted "" name).err.map GoError.Error =
        some "failed to update connector: connector id is empty" ∧
      (twingate.updateConnector t posted "" name).posted = posted) ∧
    ((twingate.deleteConnector t posted "").err.map GoError.Error =
        some "failed to delete connector: id is empty" ∧
      (twingate.deleteConnector t posted "").posted = posted) ∧
    ((twingate.createConnector t posted "").value = none ∧
      (twingate.createConnector t posted "").err.map GoError.Error =
        some "failed to create connector: network id is empty" ∧
      (twingate.createConnector t posted "").posted = posted) :=
  ⟨⟨rfl, rfl, rfl⟩, ⟨rfl, rfl⟩, ⟨rfl, rfl⟩, ⟨rfl, rfl, rfl⟩⟩

theorem apiErrorMessage_with_id (verb id cause : String) :
    twingate.apiErrorMessage verb (some id) cause =
      "failed to " ++ verb ++ " connector with id " ++ id ++ ": " ++ cause := rfl

theorem apiErrorMessage_contains (verb : String) (id : Option String) (cause : String) :
    cause.data <:+: (twingate.apiErrorMessage verb id cause).data ∧
    ∀ i, id = some i → i.data <:+: (twingate.apiErrorMessage verb id cause).data := by
  cases id with
  | none =>
    refine ⟨?_, fun i h => by cases h⟩
    simp only [twingate.apiErrorMessage, String.data_append]
    exact (List.suffix_append _ _).isInfix
  | some j =>
    refine ⟨?_, fun i h => ?_⟩
    · simp only [twingate.apiErrorMessage, String.data_append]
      exact (List.suffix_append _ _).isInfix
    · cases h
      simp only [twingate.apiErrorMessage, String.data_append]
      exact ⟨("failed to ".data ++ verb.data ++ " connector with id ".data),
        (": ".data ++ cause.data), by simp⟩

/-- C11: for every non-empty id and every API error string X, when the decoded
mutation envelope is `ok=false` with error X, `updateConnector` fails with
exactly "failed to update connector with id ID: X", `deleteConnector` with
exactly "failed to delete connector with id ID: X", and `createConnector` with
exactly "failed to create connector: X" and a nil connector; each message
contains X verbatim, and the target id when there is one. -/
theorem connector_operations_report_api_error (t : twingate.Transport)
    (posted : List twingate.Request) (id name X : String) (hid : id ≠ "") :
    (t.connectorUpdate posted id name =
        Except.ok (twingate.Decoded.value (twingate.Envelope.failed X)) →
      ∃ msg, (twingate.updateConnector t posted id name).err.map GoError.Error = some msg ∧
        msg = "failed to update connector with id " ++ id ++ ": " ++ X ∧
        X.data <:+: msg.data ∧ id.data <:+: msg.data) ∧
    (t.connectorDelete posted id =
        Except.ok (twingate.Decoded.value (twingate.Envelope.failed X)) →
      ∃ msg, (twingate.deleteConnector t posted id).err.map GoError.Error = some msg ∧
        msg = "failed to delete connector with id " ++ id ++ ": " ++ X ∧
        X.data <:+: msg.data ∧ id.data <:+: msg.data) ∧
    (t.connectorCreate posted id =
        Except.ok (twingate.Decoded.value (twingate.Envelope.failed X)) →
      (twingate.createConnector t posted id).value = none ∧
      ∃ msg, (twingate.createConnector t posted id).err.map GoError.Error = some msg ∧
        msg = "failed to create connector: " ++ X ∧
        X.data <:+: msg.data) := by
  refine ⟨fun h => ?_, fun h => ?_, fun h => ?_⟩
  · refine ⟨twingate.apiErrorMessage "update" (some id) X, ?_, rfl,
      (apiErrorMessage_contains "update" (some id) X).1,
      (apiErrorMessage_contains "update" (some id) X).2 id rfl⟩
    simp [twingate.updateConnector, hid, h, GoError.Error]
  · refine ⟨twingate.apiErrorMessage "delete" (some id) X, ?_, rfl,
      (apiErrorMessage_contains "delete" (some id) X).1,
      (apiErrorMessage_contains "delete" (some id) X).2 id rfl⟩
    simp [twingate.deleteConnector, hid, h, GoError.Error]
  · refine ⟨?_, twingate.apiErrorMessage "create" none X, ?_, rfl,
      (apiErrorMessage_contains "create" none X).1⟩
    · simp [twingate.createConnector, hid, h]
    · simp [twingate.createConnector, hid, h, GoError.Error]

/-- C11 at a concrete input: on a transport that answers every mutation with
`ok=false` and `error_1`, updating `test-id` fails with the message of the
test suite. -/
theorem connector_operations_report_api_error_witness :
    ∃ msg, (twingate.updateConnector sample.refusingTransport [] "test-id" "test-name").err.map
        GoError.Error = some msg ∧
      msg = "failed to update connector with id test-id: error_1" := by
  obtain ⟨msg, h1, h2, -⟩ :=
    (connector_operations_report_api_error sample.refusingTransport [] "test-id" "test-name"
      "error_1" (by decide)).1 rfl
  exact ⟨msg, h1, by rw [h2]; decide⟩

theorem errorsIs_errorString (msg : String) (target : GoError)
    (h : target ≠ GoError.errorString msg) :
    errorsIs (GoError.errorString msg) target = false := by
  simp [errorsIs, Ne.symm h]

/-- C12: for every non-empty id, `readConnector` on a well-formed response
whose `connector` field is null returns a nil connector and an error whose
message is exactly "failed to read connector with id ID: query result is
empty"; `errors.Is` recognises that error as `ErrGraphqlResultIsEmpty`, which
it does for neither the validation error of an empty id nor the operation
error of an `ok=false` envelope. -/
theorem readConnector_null_is_empty_result (t : twingate.Transport)
    (posted : List twingate.Request) (id : String) (hid : id ≠ "")
    (hnull : t.connector posted id = Except.ok twingate.Decoded.absent) :
    (twingate.readConnector t posted id).value = none ∧
    (∃ e, (twingate.readConnector t posted id).err = some e ∧
      e.Error = "failed to read connector with id " ++ id ++ ": query result is empty" ∧
      errorsIs e client.ErrGraphqlResultIsEmpty = true) ∧
    (∃ e, (twingate.readConnector t posted "").err = some e ∧
      errorsIs e client.ErrGraphqlResultIsEmpty = false) ∧
    (∀ name X, t.connectorUpdate posted id name =
        Except.ok (twingate.Decoded.value (twingate.Envelope.failed X)) →
      ∃ e, (twingate.updateConnector t posted id name).err = some e ∧
        errorsIs e client.ErrGraphqlResultIsEmpty = false) := by
  refine ⟨?_, ?_, ?_, ?_⟩
  · simp [twingate.readConnector, hid, hnull]
  · refine ⟨GoError.wrapError
      (twingate.apiErrorMessage "read" (some id) client.ErrGraphqlResultIsEmpty.Error)
      client.ErrGraphqlResultIsEmpty, ?_, ?_, errorsIs_wrap _ _ _ (errorsIs_self _)⟩
    · simp [twingate.readConnector, hid, hnull, twingate.responseError]
    · show "failed to " ++ "read" ++ " connector with id " ++ id ++ ": " ++
        "query result is empty" = _
      rw [String.append_assoc]
      rfl
  · exact ⟨_, rfl, errorsIs_errorString _ _ (by decide)⟩
  · intro name X h
    refine ⟨GoError.errorString (twingate.apiErrorMessage "update" (some id) X), ?_,
      errorsIs_errorString _ _ (by simp [client.ErrGraphqlResultIsEmpty])⟩
    simp [twingate.updateConnector, hid, h]

/-- C12 at a concrete input: reading `test` on a transport that finds the
`connector` field null fails with the message of the test suite, recognised as
the empty-result sentinel. -/
theorem readConnector_null_is_empty_result_witness :
    (twingate.readConnector sample.refusingTransport [] "test").value = none ∧
    ∃ e, (twingate.readConnector sample.refusingTransport [] "test").err = some e ∧
      e.Error = "failed to read connector with id test: query result is empty" ∧
      errorsIs e client.ErrGraphqlResultIsEmpty = true := by
  obtain ⟨hv, ⟨e, he, hmsg, his⟩, -⟩ :=
    readConnector_null_is_empty_result sample.refusingTransport [] "test" (by decide) rfl
  exact ⟨hv, e, he, by rw [hmsg]; decide, his⟩

/-- The loop shared by the converters: appending `f x` for each `x` in order
yields a list of the same length whose i-th element is `f` of the i-th input,
and the empty list for the nil and the empty slice. -/
theorem convert_loop_spec {α β : Type} (f : α → β) (xs : Option (List α)) :
    ∃ out : List β,
      some ((xs.getD []).foldl (fun out x => out ++ [f x]) []) = some out ∧
      out.length = (xs.getD []).length ∧
      (∀ i : Nat, out[i]? = ((xs.getD [])[i]?).map f) ∧
      (xs = none ∨ xs = some [] → out = []) := by
  refine ⟨(xs.getD []).map f, ?_, ?_, ?_, ?_⟩
  · rw [foldl_append_singleton]
    simp
  · simp
  · intro i
    simp
  · rintro (h | h) <;> simp [h]

/-- C13: for every slice of connectors, nil and empty included,
`convertConnectorsToTerraform` returns a non-nil list of the same length whose
i-th element is `ToTerraform` of the i-th connector, so the order is kept and
nothing is dropped, duplicated or re-sorted, and the nil and the empty slice
give the empty list. The same holds for the group, resource, user, service
account, security policy and remote network converters. -/
theorem converters_keep_order {Group Resource ServiceAccount SecurityPolicy RemoteNetwork Out : Type}
    (connectorTT : datasource.ToTerraformFn) (groupTT : Group → Out)
    (resourceTT : Resource → Out) (userTT : model.User → Out)
    (serviceTT : ServiceAccount → Out) (policyTT : SecurityPolicy → Out)
    (networkTT : RemoteNetwork → Out)
    (connectors : Option (List model.Connector)) (groups : Option (List Group))
    (resources : Option (List Resource)) (users : Option (List model.User))
    (services : Option (List ServiceAccount)) (policies : Option (List SecurityPolicy))
    (networks : Option (List RemoteNetwork)) :
    (∃ out, datasource.convertConnectorsToTerraform connectorTT connectors = some out ∧
      out.length = (connectors.getD []).length ∧
      (∀ i : Nat, out[i]? = ((connectors.getD [])[i]?).map connectorTT) ∧
      (connectors = none ∨ connectors = some [] → out = [])) ∧
    (∃ out, datasource.convertGroupsToTerraform groupTT groups = some out ∧
      out.length = (groups.getD []).length ∧
      (∀ i : Nat, out[i]? = ((groups.getD [])[i]?).map groupTT) ∧
      (groups = none ∨ groups = some [] → out = [])) ∧
    (∃ out, datasource.convertResourcesToTerraform resourceTT resources = some out ∧
      out.length = (resources.getD []).length ∧
      (∀ i : Nat, out[i]? = ((resources.getD [])[i]?).map resourceTT) ∧
      (resources = none ∨ resources = some [] → out = [])) ∧
    (∃ out, datasource.convertUsersToTerraform userTT users = some out ∧
      out.length = (users.getD []).length ∧
      (∀ i : Nat, out[i]? = ((users.getD [])[i]?).map userTT) ∧
      (users = none ∨ users = some [] → out = [])) ∧
    (∃ out, datasource.convertServicesToTerraform serviceTT services = some out ∧
      out.length = (services.getD []).length ∧
      (∀ i : Nat, out[i]? = ((services.getD [])[i]?).map serviceTT) ∧
      (services = none ∨ services = some [] → out = [])) ∧
    (∃ out, datasource.convertSecurityPoliciesToTerraform policyTT policies = some out ∧
      out.length = (policies.getD []).length ∧
      (∀ i : Nat, out[i]? = ((policies.getD [])[i]?).map policyTT) ∧
      (policies = none ∨ policies = some [] → out = [])) ∧
    (∃ out, datasource.convertRemoteNetworksToTerraform networkTT networks = some out ∧
      out.length = (networks.getD []).length ∧
      (∀ i : Nat, out[i]? = ((networks.getD [])[i]?).map networkTT) ∧
      (networks = none ∨ networks = some [] → out = [])) :=
  ⟨convert_loop_spec connectorTT connectors, convert_loop_spec groupTT groups,
    convert_loop_spec resourceTT resources, convert_loop_spec userTT users,
    convert_loop_spec serviceTT services, convert_loop_spec policyTT policies,
    convert_loop_spec networkTT networks⟩

/-- C14: when `serviceKeyRead` reads a key that is active, the single
`ReadServiceKey` call is the only client call, the Id, `name` and
`service_account_id` become the read key's ID, Name and Service, and the
stored `token`, like every other attribute, is left as it was. -/
theorem serviceKeyRead_active_keeps_token (fuel : Nat) (c : Client)
    (d : ResourceData ServiceKey) (tr : List Call) (k : model.ServiceKey)
    (hread : c.ReadServiceKey tr d.Id = (some k, none)) (hk : k.IsActive = true) :
    ∃ r, serviceKeyRead (fuel + 1) c d tr = Outcome.ret r ∧
      r.trace = tr ++ [Call.ReadServiceKey d.Id] ∧
      r.diags = [] ∧
      r.data.Id = k.ID ∧
      r.data.Get fieldName = Value.str k.Name ∧
      r.data.Get fieldServiceID = Value.str k.Service ∧
      r.data.Get fieldToken = d.Get fieldToken ∧
      (∀ key, key ≠ fieldName → key ≠ fieldServiceID → r.data.strings key = d.strings key) ∧
      r.data.bools = d.bools ∧ r.data.lists = d.lists ∧ r.data.changed = d.changed := by
  have h : serviceKeyRead (fuel + 1) c d tr =
      serviceKeyReadHelper (fuel + 1) c d (tr ++ [Call.ReadServiceKey d.Id]) (some k) none := by
    simp only [serviceKeyRead, hread]
  rw [h, serviceKeyReadHelper_active _ _ _ _ _ hk]
  refine ⟨_, rfl, rfl, rfl, rfl, rfl, rfl, rfl, ?_, rfl, rfl, rfl⟩
  intro key h1 h2
  simp [h1, h2]

/-- C14 at a concrete input: reading `key-1` on a client that finds it active
issues the one read and keeps the stored token `old-token`. -/
theorem serviceKeyRead_active_keeps_token_witness :
    ∃ r, serviceKeyRead 1 sample.activeKeyClient sample.keyData [] = Outcome.ret r ∧
      r.trace = [Call.ReadServiceKey "key-1"] ∧
      r.diags = [] ∧
      r.data.Id = "key-1" ∧
      r.data.Get fieldToken = Value.str "old-token" := by
  obtain ⟨r, h, htr, hd, hid, -, -, htok, -⟩ :=
    serviceKeyRead_active_keeps_token 0 sample.activeKeyClient sample.keyData []
      sample.activeKey rfl rfl
  exact ⟨r, h, htr, hd, hid, htok⟩

theorem resourceConnector_set_name (d : ResourceData twingate.resourceConnector) (s : String) :
    d.Set "name" (Value.str s) =
      Except.ok { d with strings := fun k => if k = "name" then s else d.strings k } := rfl

theorem resourceConnectorCreate_unfold (client : twingate.Client)
    (d : ResourceData twingate.resourceConnector) (tr : List twingate.Call) :
    twingate.resourceConnectorCreate client d tr =
      match client.createConnector tr (d.strings "remote_network_id") with
      | (_, some err) =>
          Outcome.ret ⟨d, tr ++ [twingate.Call.createConnector (d.strings "remote_network_id")],
            diag.FromErr (some err)⟩
      | (none, none) => Outcome.panic "nil pointer dereference"
      | (some connector, none) =>
          twingate.resourceConnectorRead client (d.SetId connector.ID)
            (tr ++ [twingate.Call.createConnector (d.strings "remote_network_id")]) := rfl

theorem resourceConnectorRead_ok (client : twingate.Client)
    (d : ResourceData twingate.resourceConnector) (tr : List twingate.Call)
    (connector : model.Connector)
    (hread : client.readConnector tr d.Id = (some connector, none)) :
    twingate.resourceConnectorRead client d tr =
      Outcome.ret ⟨{ d with strings := fun k => if k = "name" then connector.Name else d.strings k },
        tr ++ [twingate.Call.readConnector d.Id], []⟩ := by
  unfold twingate.resourceConnectorRead
  simp only [hread, resourceConnector_set_name]

/-- C15: when `createConnector` succeeds with connector `c`,
`resourceConnectorCreate` sets the resource Id to `c.ID` and the next client
call is the read of that Id, whose connector gives the `name` attribute; when
`createConnector` fails, its error is returned as diagnostics, no read is
issued and the resource data, the Id included, is unchanged. -/
theorem resourceConnectorCreate_then_read (client : twingate.Client)
    (d : ResourceData twingate.resourceConnector) (tr : List twingate.Call) :
    (∀ conn, client.createConnector tr (d.strings "remote_network_id") = (some conn, none) →
      (∀ r, twingate.resourceConnectorCreate client d tr = Outcome.ret r →
        r.data.Id = conn.ID ∧
        r.trace = tr ++ [twingate.Call.createConnector (d.strings "remote_network_id"),
          twingate.Call.readConnector conn.ID]) ∧
      (∀ found, client.readConnector
            (tr ++ [twingate.Call.createConnector (d.strings "remote_network_id")]) conn.ID =
            (some found, none) →
        ∃ r, twingate.resourceConnectorCreate client d tr = Outcome.ret r ∧
          r.diags = [] ∧
          r.data.Id = conn.ID ∧
          r.data.Get "name" = Value.str found.Name ∧
          r.trace = tr ++ [twingate.Call.createConnector (d.strings "remote_network_id"),
            twingate.Call.readConnector conn.ID]) ∧
      (∀ p e, client.readConnector
            (tr ++ [twingate.Call.createConnector (d.strings "remote_network_id")]) conn.ID =
            (p, some e) →
        twingate.resourceConnectorCreate client d tr =
          Outcome.ret ⟨d.SetId conn.ID,
            tr ++ [twingate.Call.createConnector (d.strings "remote_network_id"),
              twingate.Call.readConnector conn.ID],
            diag.FromErr (some e)⟩)) ∧
    (∀ p e, client.createConnector tr (d.strings "remote_network_id") = (p, some e) →
      twingate.resourceConnectorCreate client d tr =
        Outcome.ret ⟨d, tr ++ [twingate.Call.createConnector (d.strings "remote_network_id")],
          diag.FromErr (some e)⟩) := by
  have happ : ∀ x y : twingate.Call, tr ++ [x] ++ [y] = tr ++ [x, y] := by
    intro x y; simp
  constructor
  · intro conn hc
    have hstep : twingate.resourceConnectorCreate client d tr =
        twingate.resourceConnectorRead client (d.SetId conn.ID)
          (tr ++ [twingate.Call.createConnector (d.strings "remote_network_id")]) := by
      rw [resourceConnectorCreate_unfold, hc]
    refine ⟨?_, ?_, ?_⟩
    · intro r h
      rw [hstep] at h
      rcases hr : client.readConnector
        (tr ++ [twingate.Call.createConnector (d.strings "remote_network_id")])
        (d.SetId conn.ID).Id with ⟨p, e⟩
      cases e with
      | some e =>
        rw [resourceConnectorRead_on_error _ _ _ _ _ hr] at h
        cases h
        exact ⟨rfl, happ _ _⟩
      | none =>
        cases p with
        | none =>
          unfold twingate.resourceConnectorRead at h
          simp [hr] at h
        | some found =>
          rw [resourceConnectorRead_ok _ _ _ _ hr] at h
          cases h
          exact ⟨rfl, happ _ _⟩
    · intro found hr
      rw [hstep, resourceConnectorRead_ok _ _ _ found hr]
      exact ⟨_, rfl, rfl, rfl, rfl, happ _ _⟩
    · intro p e hr
      rw [hstep, resourceConnectorRead_on_error _ _ _ p e hr, happ]
      rfl
  · intro p e hc
    rw [resourceConnectorCreate_unfold, hc]
    cases p <;> rfl

/-- C15 at a concrete input: creating a connector in `net-1` on a client that
creates `conn-1` reads `conn-1` next and stores its name; a failing create
leaves the data as it was and issues no read. -/
theorem resourceConnectorCreate_then_read_witness :
    (∃ r, twingate.resourceConnectorCreate sample.creatingConnectorClient
        sample.newConnectorData [] = Outcome.ret r ∧
      r.diags = [] ∧
      r.data.Id = "conn-1" ∧
      r.data.Get "name" = Value.str "gentle-fox" ∧
      r.trace = [twingate.Call.createConnector "net-1", twingate.Call.readConnector "conn-1"]) ∧
    twingate.resourceConnectorCreate sample.goneConnectorClient sample.newConnectorData [] =
      Outcome.ret ⟨sample.newConnectorData, [twingate.Call.createConnector "net-1"],
        diag.FromErr (some sample.refused)⟩ :=
  ⟨((resourceConnectorCreate_then_read sample.creatingConnectorClient
      sample.newConnectorData []).1 { ID := "conn-1", Name := "gentle-fox" } rfl).2.1
      { ID := "conn-1", Name := "gentle-fox" } rfl,
   (resourceConnectorCreate_then_read sample.goneConnectorClient
      sample.newConnectorData []).2 none sample.refused rfl⟩

/-- C16: whatever the client answers, `serviceKeyDelete` issues no call after a
failed step. A failed `ReadServiceKey` (the empty-result error included) is
returned with neither revoke nor delete called; `RevokeServiceKey` is called
exactly when the read key is active, and a failed revoke is returned with no
delete called; otherwise `DeleteServiceKey` is called once, on the resource Id,
as the last client call. -/
theorem serviceKeyDelete_call_order (c : Client) (d : ResourceData ServiceKey)
    (tr : List Call) :
    (∀ p e, c.ReadServiceKey tr d.Id = (p, some e) →
      serviceKeyDelete c d tr =
        Outcome.ret ⟨d, tr ++ [Call.ReadServiceKey d.Id], diag.FromErr (some e)⟩) ∧
    (∀ k, c.ReadServiceKey tr d.Id = (some k, none) →
      (k.IsActive = true →
        (∀ e, c.RevokeServiceKey (tr ++ [Call.ReadServiceKey d.Id]) d.Id = some e →
          serviceKeyDelete c d tr =
            Outcome.ret ⟨d, tr ++ [Call.ReadServiceKey d.Id, Call.RevokeServiceKey d.Id],
              diag.FromErr (some e)⟩) ∧
        (c.RevokeServiceKey (tr ++ [Call.ReadServiceKey d.Id]) d.Id = none →
          serviceKeyDelete c d tr =
            Outcome.ret ⟨d,
              tr ++ [Call.ReadServiceKey d.Id, Call.RevokeServiceKey d.Id,
                Call.DeleteServiceKey d.Id],
              diag.FromErr (c.DeleteServiceKey
                (tr ++ [Call.ReadServiceKey d.Id, Call.RevokeServiceKey d.Id]) d.Id)⟩)) ∧
      (k.IsActive = false →
        serviceKeyDelete c d tr =
          Outcome.ret ⟨d, tr ++ [Call.ReadServiceKey d.Id, Call.DeleteServiceKey d.Id],
            diag.FromErr (c.DeleteServiceKey (tr ++ [Call.ReadServiceKey d.Id]) d.Id)⟩)) ∧
    (∀ r, serviceKeyDelete c d tr = Outcome.ret r →
      r.data = d ∧
      (r.trace = tr ++ [Call.ReadServiceKey d.Id] ∨
        r.trace = tr ++ [Call.ReadServiceKey d.Id, Call.RevokeServiceKey d.Id] ∨
        r.trace = tr ++ [Call.ReadServiceKey d.Id, Call.RevokeServiceKey d.Id,
          Call.DeleteServiceKey d.Id] ∨
        r.trace = tr ++ [Call.ReadServiceKey d.Id, Call.DeleteServiceKey d.Id])) := by
  have hfail : ∀ p e, c.ReadServiceKey tr d.Id = (p, some e) →
      serviceKeyDelete c d tr =
        Outcome.ret ⟨d, tr ++ [Call.ReadServiceKey d.Id], diag.FromErr (some e)⟩ := by
    intro p e h
    simp only [serviceKeyDelete, h]
  have hrevfail : ∀ k, c.ReadServiceKey tr d.Id = (some k, none) → k.IsActive = true →
      ∀ e, c.RevokeServiceKey (tr ++ [Call.ReadServiceKey d.Id]) d.Id = some e →
      serviceKeyDelete c d tr =
        Outcome.ret ⟨d, tr ++ [Call.ReadServiceKey d.Id, Call.RevokeServiceKey d.Id],
          diag.FromErr (some e)⟩ := by
    intro k h hk e hrev
    simp [serviceKeyDelete, h, hk, hrev]
  have hrevok : ∀ k, c.ReadServiceKey tr d.Id = (some k, none) → k.IsActive = true →
      c.RevokeServiceKey (tr ++ [Call.ReadServiceKey d.Id]) d.Id = none →
      serviceKeyDelete c d tr =
        Outcome.ret ⟨d,
          tr ++ [Call.ReadServiceKey d.Id, Call.RevokeServiceKey d.Id,
            Call.DeleteServiceKey d.Id],
          diag.FromErr (c.DeleteServiceKey
            (tr ++ [Call.ReadServiceKey d.Id, Call.RevokeServiceKey d.Id]) d.Id)⟩ := by
    intro k h hk hrev
    cases hdel : c.DeleteServiceKey
        (tr ++ [Call.ReadServiceKey d.Id, Call.RevokeServiceKey d.Id]) d.Id <;>
      simp [serviceKeyDelete, h, hk, hrev, hdel, diag.FromErr]
  have hinactive : ∀ k, c.ReadServiceKey tr d.Id = (some k, none) → k.IsActive = false →
      serviceKeyDelete c d tr =
        Outcome.ret ⟨d, tr ++ [Call.ReadServiceKey d.Id, Call.DeleteServiceKey d.Id],
          diag.FromErr (c.DeleteServiceKey (tr ++ [Call.ReadServiceKey d.Id]) d.Id)⟩ := by
    intro k h hk
    cases hdel : c.DeleteServiceKey (tr ++ [Call.ReadServiceKey d.Id]) d.Id <;>
      simp [serviceKeyDelete, h, hk, hdel, diag.FromErr]
  refine ⟨hfail, fun k h => ⟨fun hk => ⟨hrevfail k h hk, hrevok k h hk⟩, hinactive k h⟩, ?_⟩
  intro r hr
  rcases hread : c.ReadServiceKey tr d.Id with ⟨p, e⟩
  cases e with
  | some e =>
    rw [hfail p e hread] at hr
    cases hr
    exact ⟨rfl, Or.inl rfl⟩
  | none =>
    cases p with
    | none => simp [serviceKeyDelete, hread] at hr
    | some k =>
      cases hk : k.IsActive with
      | false =>
        rw [hinactive k hread hk] at hr
        cases hr
        exact ⟨rfl, Or.inr (Or.inr (Or.inr rfl))⟩
      | true =>
        cases hrev : c.RevokeServiceKey (tr ++ [Call.ReadServiceKey d.Id]) d.Id with
        | some e =>
          rw [hrevfail k hread hk e hrev] at hr
          cases hr
          exact ⟨rfl, Or.inr (Or.inl rfl)⟩
        | none =>
          rw [hrevok k hread hk hrev] at hr
          cases hr
          exact ⟨rfl, Or.inr (Or.inr (Or.inl rfl))⟩

/-- C16 at a concrete input: deleting `key-1` on a client whose read fails with
the empty-result error returns that error after the read alone. -/
theorem serviceKeyDelete_call_order_witness :
    serviceKeyDelete sample.goneKeyClient sample.keyData [] =
      Outcome.ret ⟨sample.keyData, [Call.ReadServiceKey "key-1"],
        diag.FromErr (some sample.goneError)⟩ :=
  (serviceKeyDelete_call_order sample.goneKeyClient sample.keyData []).1
    none sample.goneError rfl

end Theorems

end Provider
